import Mathlib

set_option maxRecDepth 16384

/-!
Shallow embedding of the 6502-Emulator core (TypeScript sources) in Lean 4,
together with theorems settling the frozen claims about its specification.

Modelling conventions:
* machine bytes and registers are `Nat` with the exact masks (`&&& 0xFF`, ...)
  the source applies; typed arrays (`Uint8Array`, `Buffer`) are `Nat → Nat`
  functions updated pointwise, and their element assignment truncates to a
  byte exactly as the JS typed arrays do;
* mutation becomes explicit state passing: a mutating read returns a
  `value × state` pair;
* outbound host callbacks (`raiseIRQ`) are observed where a claim needs them
  by returning a flag / counter next to the new state;
* JS `~x` applied to byte-sized operands is `bnot8`; JS signed intermediate
  values are modelled with `Int` where the source can go negative.
-/

/-- Pointwise update of a byte-array modelled as a function. -/
def updFn (f : Nat → Nat) (i v : Nat) : Nat → Nat :=
  fun j => if j = i then v else f j

/-- Pointwise update of an array of optional values (nullable slots). -/
def updOpt {α : Type} (f : Nat → Option α) (i : Nat) (v : Option α) : Nat → Option α :=
  fun j => if j = i then v else f j

/-- JS 32-bit bitwise NOT, restricted to 8-bit operands: for `x < 256`,
`x & ~m` in the source equals `x &&& bnot8 m` here. -/
def bnot8 (m : Nat) : Nat := 0xFF ^^^ (m &&& 0xFF)

/-- JS 32-bit bitwise NOT restricted to 12-bit operands (SID waveforms). -/
def bnot12 (m : Nat) : Nat := 0xFFF ^^^ (m &&& 0xFFF)

/-- Block copy: `src.copy(dst, dstOff, srcOff, srcOff+len)` semantics of
Node buffers — `len` bytes of `src` starting at `srcOff` land at `dstOff`. -/
def copyRange (src dst : Nat → Nat) (dstOff srcOff len : Nat) : Nat → Nat :=
  fun j => if dstOff ≤ j ∧ j < dstOff + len then src (srcOff + (j - dstOff)) else dst j

/-- Store a list of byte values into a byte-array at an offset. -/
def storeList (f : Nat → Nat) (off : Nat) (l : List Nat) : Nat → Nat :=
  fun j => if off ≤ j ∧ j < off + l.length then l.getD (j - off) 0 else f j

/-- Store the char codes of a string (ASCII identity fields). -/
def storeStr (f : Nat → Nat) (off : Nat) (s : String) : Nat → Nat :=
  storeList f off (s.toList.map Char.toNat)

/-! ## RAMCard (src/components/IO/RAMCard.ts)

256KB of banked RAM in 256 banks of 1KB; offset `0x3FF` is the bank-select
register. -/

structure RAMCard where
  data : Nat → Nat
  currentBank : Nat

namespace RAMCard

def TOTAL_SIZE : Nat := 256 * 1024
def BANK_SIZE : Nat := 1024
def NUM_BANKS : Nat := TOTAL_SIZE / BANK_SIZE
def BANK_CONTROL_REGISTER : Nat := 0x3FF

/-- Construction state: all banks zero, bank 0 selected. -/
def init : RAMCard := ⟨fun _ => 0x00, 0⟩

def read (address : Nat) (c : RAMCard) : Nat :=
  if address = BANK_CONTROL_REGISTER then c.currentBank
  else c.data (c.currentBank * BANK_SIZE + address)

def write (address d : Nat) (c : RAMCard) : RAMCard :=
  if address = BANK_CONTROL_REGISTER then { c with currentBank := d &&& 0xFF }
  else { c with data := updFn c.data (c.currentBank * BANK_SIZE + address) (d &&& 0xFF) }

def reset (coldStart : Bool) (c : RAMCard) : RAMCard :=
  if coldStart then { c with currentBank := 0, data := fun _ => 0x00 } else c

end RAMCard

/-! ## SerialCard (src/components/IO/SerialCard.ts)

6551 ACIA with RX/TX FIFOs. The `raiseIRQ` callback is not tracked here;
only state effects are modelled. -/

structure SerialCard where
  dataRegister : Nat
  statusRegister : Nat
  commandRegister : Nat
  controlRegister : Nat
  transmitBuffer : List Nat
  receiveBuffer : List Nat
  parityError : Bool
  framingError : Bool
  overrun : Bool
  irqFlag : Bool
  echoMode : Bool
  cycleCounter : Nat
  baudRate : Nat

namespace SerialCard

/-- Construction state (class field initializers). -/
def init : SerialCard :=
  { dataRegister := 0, statusRegister := 0x10, commandRegister := 0, controlRegister := 0,
    transmitBuffer := [], receiveBuffer := [],
    parityError := false, framingError := false, overrun := false, irqFlag := false,
    echoMode := false, cycleCounter := 0, baudRate := 115200 }

def readData (c : SerialCard) : Nat × SerialCard :=
  match c.receiveBuffer with
  | d :: rest =>
    let c := { c with receiveBuffer := rest, dataRegister := d,
                      statusRegister := c.statusRegister &&& bnot8 0x08 }
    let c := if rest.length = 0 then
        { c with overrun := false, statusRegister := c.statusRegister &&& bnot8 0x04 }
      else c
    let c := if c.commandRegister &&& 0x04 ≠ 0 ∧ rest.length = 0 then
        { c with irqFlag := false, statusRegister := c.statusRegister &&& bnot8 0x80 }
      else c
    (d, c)
  | [] => (c.dataRegister, c)

def writeData (d : Nat) (c : SerialCard) : SerialCard :=
  { c with transmitBuffer := c.transmitBuffer ++ [d &&& 0xFF],
           statusRegister := c.statusRegister &&& bnot8 0x10 }

def readStatus (c : SerialCard) : Nat × SerialCard :=
  let status : Nat := 0
  let status := if c.parityError then status ||| 0x01 else status
  let status := if c.framingError then status ||| 0x02 else status
  let status := if c.overrun then status ||| 0x04 else status
  let status := if c.receiveBuffer.length > 0 then status ||| 0x08 else status
  let status := if c.transmitBuffer.length = 0 then status ||| 0x10 else status
  let status := status &&& bnot8 0x20
  let status := status ||| 0x40
  let status := if c.irqFlag then status ||| 0x80 else status
  (status, { c with statusRegister := status })

def writeCommand (d : Nat) (c : SerialCard) : SerialCard :=
  let c := { c with commandRegister := d &&& 0xFF }
  let receiveIRQEnabled := d &&& 0x04 ≠ 0
  let c := { c with echoMode := d &&& 0x20 ≠ 0 }
  if receiveIRQEnabled ∧ c.receiveBuffer.length > 0 then
    { c with irqFlag := true, statusRegister := c.statusRegister ||| 0x80 }
  else if ¬receiveIRQEnabled then
    { c with irqFlag := false, statusRegister := c.statusRegister &&& bnot8 0x80 }
  else c

/-- Baud rate table; the JS `|| 115200` fallback never fires (all entries
are nonzero and the 4-bit code always indexes the table). -/
def getBaudRate (code : Nat) : Nat :=
  [115200, 50, 75, 110, 135, 150, 300, 600,
   1200, 1800, 2400, 3600, 4800, 7200, 9600, 19200].getD code 115200

def writeControl (d : Nat) (c : SerialCard) : SerialCard :=
  { c with controlRegister := d &&& 0xFF, baudRate := getBaudRate (d &&& 0x0F) }

def programmedReset (c : SerialCard) : SerialCard :=
  { c with statusRegister := 0x10,
           parityError := false, framingError := false, overrun := false, irqFlag := false }

def read (address : Nat) (c : SerialCard) : Nat × SerialCard :=
  match address &&& 0x03 with
  | 0x00 => readData c
  | 0x01 => readStatus c
  | _ => (0, c)

def write (address d : Nat) (c : SerialCard) : SerialCard :=
  match address &&& 0x03 with
  | 0x00 => writeData d c
  | 0x01 => programmedReset c
  | 0x02 => writeCommand d c
  | _ => writeControl d c

end SerialCard

/-! ## StorageCard (src/components/IO/StorageCard.ts)

128MB Compact Flash card behind an 8-bit ATA register interface. -/

structure StorageCard where
  storage : Nat → Nat
  identity : Nat → Nat
  buffer : Nat → Nat
  bufferIndex : Nat
  commandDataSize : Nat
  sectorOffset : Nat
  error : Nat
  feature : Nat
  sectorCount : Nat
  lba0 : Nat
  lba1 : Nat
  lba2 : Nat
  lba3 : Nat
  status : Nat
  command : Nat
  isIdentifying : Bool
  isTransferring : Bool

namespace StorageCard

def STORAGE_SIZE : Nat := 128 * 1024 * 1024
def SECTOR_SIZE : Nat := 512
def SECTOR_COUNT : Nat := STORAGE_SIZE / SECTOR_SIZE

def STATUS_ERR : Nat := 0x01
def STATUS_DRQ : Nat := 0x08
def STATUS_RDY : Nat := 0x40

def ERR_AMNF : Nat := 0x01
def ERR_ABRT : Nat := 0x04
def ERR_IDNF : Nat := 0x10

/-- The generated identity sector (`generateIdentity`). -/
def generateIdentity : Nat → Nat :=
  let f : Nat → Nat := fun _ => 0x00
  let f := storeList f 0 [0x84, 0x8A]
  let f := storeList f 2 [0x00, 0x04]
  let f := storeList f 4 [0x00, 0x00]
  let f := storeList f 6 [0x08, 0x00]
  let f := storeList f 8 [0x00, 0x40]
  let f := storeList f 10 [0x00, 0x02]
  let f := storeList f 12 [0x20, 0x00]
  let f := storeList f 14 [0x04, 0x00, 0x00, 0x00, 0x00, 0x00]
  let f := storeStr f 20 "ACWD6502EMUCF1010101"
  let f := storeList f 40 [0x01, 0x00]
  let f := storeList f 42 [0x04, 0x00]
  let f := storeList f 44 [0x04, 0x00]
  let f := storeStr f 46 "1.0     "
  let f := storeStr f 54 "ACWD6502EMUCF                       "
  let f := storeList f 94 [0x01, 0x00]
  let f := storeList f 96 [0x00, 0x00]
  let f := storeList f 98 [0x00, 0x02]
  let f := storeList f 100 [0x00, 0x00]
  let f := storeList f 102 [0x00, 0x02]
  let f := storeList f 104 [0x00, 0x00]
  let f := storeList f 106 [0x01, 0x00]
  let f := storeList f 108 [0x00, 0x04]
  let f := storeList f 110 [0x08, 0x00]
  let f := storeList f 112 [0x20, 0x00]
  let f := storeList f 114 [0x00, 0x00, 0x04, 0x00]
  let f := storeList f 118 [0x01, 0x01]
  let f := storeList f 120 [0x00, 0x00, 0x04, 0x00]
  f

def sectorIndex (c : StorageCard) : Nat :=
  ((c.lba3 &&& 0x0F) <<< 24) ||| (c.lba2 <<< 16) ||| (c.lba1 <<< 8) ||| c.lba0

def sectorValid (c : StorageCard) : Bool :=
  sectorIndex c < SECTOR_COUNT

def reset (_coldStart : Bool) (c : StorageCard) : StorageCard :=
  { c with bufferIndex := 0x0000, commandDataSize := SECTOR_SIZE, sectorOffset := 0,
           error := 0x00, feature := 0x00, sectorCount := 0x00,
           lba0 := 0x00, lba1 := 0x00, lba2 := 0x00, lba3 := 0xE0,
           status := 0x00 ||| STATUS_RDY, command := 0x00,
           isIdentifying := false, isTransferring := false,
           buffer := fun _ => 0x00 }

/-- Construction state: zero-filled storage, generated identity, then
`reset(true)`. -/
def init : StorageCard :=
  reset true
    { storage := fun _ => 0x00, identity := generateIdentity, buffer := fun _ => 0x00,
      bufferIndex := 0, commandDataSize := SECTOR_SIZE, sectorOffset := 0,
      error := 0, feature := 0, sectorCount := 0,
      lba0 := 0, lba1 := 0, lba2 := 0, lba3 := 0xE0,
      status := 0, command := 0, isIdentifying := false, isTransferring := false }

def executeCommand (c : StorageCard) : StorageCard :=
  let c := { c with status := c.status &&& bnot8 STATUS_ERR }
  let c := { c with status := c.status &&& bnot8 STATUS_DRQ }
  let c := { c with error := 0x00, commandDataSize := SECTOR_SIZE * c.sectorCount,
                    bufferIndex := 0, sectorOffset := 0 }
  if c.isTransferring ∨ c.isIdentifying then
    { c with status := c.status ||| STATUS_ERR, error := c.error ||| ERR_ABRT }
  else
    match c.command with
    | 0xC0 =>
      if ¬sectorValid c then
        { c with status := c.status ||| STATUS_ERR, error := c.error ||| (ERR_ABRT ||| ERR_IDNF) }
      else
        let offset := sectorIndex c * SECTOR_SIZE
        { c with storage := fun j => if offset ≤ j ∧ j < offset + SECTOR_SIZE then 0x00 else c.storage j }
    | 0xEC =>
      { c with buffer := copyRange c.identity c.buffer 0 0 SECTOR_SIZE,
               commandDataSize := SECTOR_SIZE,
               status := c.status ||| STATUS_DRQ, isIdentifying := true }
    | 0x20 | 0x21 =>
      if ¬sectorValid c then
        { c with status := c.status ||| STATUS_ERR, error := c.error ||| (ERR_ABRT ||| ERR_IDNF) }
      else
        let offset := sectorIndex c * SECTOR_SIZE
        { c with buffer := copyRange c.storage c.buffer 0 offset SECTOR_SIZE,
                 status := c.status ||| STATUS_DRQ, isTransferring := true }
    | 0xEF => c
    | 0x30 | 0x31 =>
      if ¬sectorValid c then
        { c with status := c.status ||| STATUS_ERR, error := c.error ||| (ERR_ABRT ||| ERR_IDNF) }
      else
        { c with status := c.status ||| STATUS_DRQ, isTransferring := true }
    | _ =>
      { c with status := c.status ||| STATUS_ERR, error := c.error ||| ERR_ABRT }

def readBuffer (c : StorageCard) : Nat × StorageCard :=
  if c.isIdentifying then
    let d := c.buffer c.bufferIndex
    if c.bufferIndex < c.commandDataSize - 1 then
      (d, { c with bufferIndex := c.bufferIndex + 1 })
    else
      (d, { c with bufferIndex := 0, isIdentifying := false,
                   status := c.status &&& bnot8 STATUS_DRQ })
  else if c.isTransferring then
    let d := c.buffer c.bufferIndex
    if c.bufferIndex < SECTOR_SIZE - 1 then
      (d, { c with bufferIndex := c.bufferIndex + 1 })
    else
      let c := { c with bufferIndex := 0, sectorOffset := c.sectorOffset + 1 }
      if c.sectorOffset < c.sectorCount then
        let offset := (sectorIndex c + c.sectorOffset) * SECTOR_SIZE
        (d, { c with buffer := copyRange c.storage c.buffer 0 offset SECTOR_SIZE })
      else
        (d, { c with isTransferring := false, status := c.status &&& bnot8 STATUS_DRQ })
  else
    (0x00, c)

def writeBuffer (v : Nat) (c : StorageCard) : StorageCard :=
  let c := { c with buffer := updFn c.buffer c.bufferIndex (v &&& 0xFF) }
  if c.bufferIndex < SECTOR_SIZE - 1 then
    { c with bufferIndex := c.bufferIndex + 1 }
  else
    let c := { c with bufferIndex := 0 }
    let offset := (sectorIndex c + c.sectorOffset) * SECTOR_SIZE
    let c := { c with storage := copyRange c.buffer c.storage offset 0 SECTOR_SIZE }
    let c := { c with sectorOffset := c.sectorOffset + 1 }
    if c.sectorOffset ≥ c.sectorCount then
      { c with isTransferring := false, status := c.status &&& bnot8 STATUS_DRQ }
    else c

def read (address : Nat) (c : StorageCard) : Nat × StorageCard :=
  match address &&& 0x0007 with
  | 0x00 => readBuffer c
  | 0x01 => (c.error, c)
  | 0x02 => (c.sectorCount, c)
  | 0x03 => (c.lba0, c)
  | 0x04 => (c.lba1, c)
  | 0x05 => (c.lba2, c)
  | 0x06 => (c.lba3, c)
  | 0x07 => (c.status, c)
  | _ => (0x00, c)

def write (address d : Nat) (c : StorageCard) : StorageCard :=
  match address &&& 0x0007 with
  | 0x00 => writeBuffer d c
  | 0x01 => { c with feature := d }
  | 0x02 => { c with sectorCount := d }
  | 0x03 => { c with lba0 := d }
  | 0x04 => { c with lba1 := d }
  | 0x05 => { c with lba2 := d }
  | 0x06 => { c with lba3 := (d &&& 0x0F) ||| 0xE0 }
  | 0x07 => executeCommand { c with command := d }
  | _ => c

/-- States reachable from construction through the bus interface
(register writes with byte data, and register reads). -/
inductive Reach : StorageCard → Prop where
  | init : Reach StorageCard.init
  | wr (a d : Nat) {c : StorageCard} : d < 256 → Reach c → Reach (write a d c)
  | rd (a : Nat) {c : StorageCard} : Reach c → Reach (read a c).2

end StorageCard

/-! ## GPIOCard (src/components/IO/GPIOCard.ts) — the 65C22 VIA

Attachments are polymorphic over the `GPIOAttachment` capability set
(src/components/IO/GPIOAttachments/GPIOAttachment.ts); `α` is the
attachment state type and `GPIOAttachmentOps α` carries its methods. -/

structure GPIOAttachmentOps (α : Type) where
  reset : α → α
  tick : Nat → α → α
  readPortA : Nat → Nat → α → Nat
  readPortB : Nat → Nat → α → Nat
  writePortA : Nat → Nat → α → α
  writePortB : Nat → Nat → α → α
  isEnabled : α → Bool
  getPriority : α → Nat
  clearInterrupts : Bool → Bool → Bool → Bool → α → α
  updateControlLines : Bool → Bool → Bool → Bool → α → α
  hasCA1Interrupt : α → Bool
  hasCA2Interrupt : α → Bool
  hasCB1Interrupt : α → Bool
  hasCB2Interrupt : α → Bool

/-- A trivial attachment type for concrete instantiations. -/
def unitAttachmentOps : GPIOAttachmentOps Unit :=
  { reset := id, tick := fun _ => id,
    readPortA := fun _ _ _ => 0xFF, readPortB := fun _ _ _ => 0xFF,
    writePortA := fun _ _ => id, writePortB := fun _ _ => id,
    isEnabled := fun _ => true, getPriority := fun _ => 0,
    clearInterrupts := fun _ _ _ _ => id, updateControlLines := fun _ _ _ _ => id,
    hasCA1Interrupt := fun _ => false, hasCA2Interrupt := fun _ => false,
    hasCB1Interrupt := fun _ => false, hasCB2Interrupt := fun _ => false }

structure GPIOCard (α : Type) where
  regORB : Nat
  regORA : Nat
  regDDRB : Nat
  regDDRA : Nat
  regT1C : Nat
  regT1L : Nat
  regT2C : Nat
  regT2L : Nat
  regSR : Nat
  regACR : Nat
  regPCR : Nat
  regIFR : Nat
  regIER : Nat
  CA1 : Bool
  CA2 : Bool
  CB1 : Bool
  CB2 : Bool
  T1_running : Bool
  T2_running : Bool
  T1_IRQ_enabled : Bool
  T2_IRQ_enabled : Bool
  tickCounter : Nat
  ticksPerMicrosecond : Nat
  portA_attachments : Nat → Option α
  portB_attachments : Nat → Option α
  portA_attachmentCount : Nat
  portB_attachmentCount : Nat

namespace GPIOCard

variable {α : Type}

def IRQ_CA2 : Nat := 0x01
def IRQ_CA1 : Nat := 0x02
def IRQ_SR : Nat := 0x04
def IRQ_CB2 : Nat := 0x08
def IRQ_CB1 : Nat := 0x10
def IRQ_T2 : Nat := 0x20
def IRQ_T1 : Nat := 0x40
def IRQ_IRQ : Nat := 0x80
def MAX_ATTACHMENTS_PER_PORT : Nat := 8

/-- Construction state: the constructor calls `reset(true)`; these are the
post-reset field values. -/
def init : GPIOCard α :=
  { regORB := 0x00, regORA := 0x00, regDDRB := 0x00, regDDRA := 0x00,
    regT1C := 0xFFFF, regT1L := 0xFFFF, regT2C := 0xFFFF, regT2L := 0xFF,
    regSR := 0x00, regACR := 0x00, regPCR := 0x00, regIFR := 0x00, regIER := 0x00,
    CA1 := false, CA2 := false, CB1 := false, CB2 := false,
    T1_running := false, T2_running := false,
    T1_IRQ_enabled := false, T2_IRQ_enabled := false,
    tickCounter := 0, ticksPerMicrosecond := 1,
    portA_attachments := fun _ => none, portB_attachments := fun _ => none,
    portA_attachmentCount := 0, portB_attachmentCount := 0 }

/-- `reset(coldStart)`: clears registers, control lines, timer state and
empties the attachment slots; the attachment-reset loops run afterwards
over the (already zeroed) counts, so no attachment `reset` is ever called.
The second component counts the attachment `reset()` invocations made. -/
def reset (ops : GPIOAttachmentOps α) (_coldStart : Bool) (c : GPIOCard α) :
    GPIOCard α × Nat :=
  let c := { c with
    regORB := 0x00, regORA := 0x00, regDDRB := 0x00, regDDRA := 0x00,
    regT1C := 0xFFFF, regT1L := 0xFFFF, regT2C := 0xFFFF, regT2L := 0xFF,
    regSR := 0x00, regACR := 0x00, regPCR := 0x00, regIFR := 0x00, regIER := 0x00,
    CA1 := false, CA2 := false, CB1 := false, CB2 := false,
    T1_running := false, T2_running := false,
    T1_IRQ_enabled := false, T2_IRQ_enabled := false,
    portA_attachmentCount := 0, portB_attachmentCount := 0,
    portA_attachments := fun _ => none, portB_attachments := fun _ => none }
  let (c, nA) := (List.range c.portA_attachmentCount).foldl
    (fun (acc : GPIOCard α × Nat) i =>
      match acc.1.portA_attachments i with
      | some a =>
        ({ acc.1 with portA_attachments := updOpt acc.1.portA_attachments i (some (ops.reset a)) },
         acc.2 + 1)
      | none => acc) (c, 0)
  let (c, nB) := (List.range c.portB_attachmentCount).foldl
    (fun (acc : GPIOCard α × Nat) i =>
      match acc.1.portB_attachments i with
      | some a =>
        ({ acc.1 with portB_attachments := updOpt acc.1.portB_attachments i (some (ops.reset a)) },
         acc.2 + 1)
      | none => acc) (c, 0)
  ({ c with tickCounter := 0, ticksPerMicrosecond := 1 }, nA + nB)

def updateIRQ (c : GPIOCard α) : GPIOCard α :=
  if c.regIFR &&& c.regIER &&& 0x7F ≠ 0 then
    { c with regIFR := c.regIFR ||| IRQ_IRQ }
  else
    { c with regIFR := c.regIFR &&& bnot8 IRQ_IRQ }

def setIRQFlag (flag : Nat) (c : GPIOCard α) : GPIOCard α :=
  updateIRQ { c with regIFR := c.regIFR ||| flag }

def clearIRQFlag (flag : Nat) (c : GPIOCard α) : GPIOCard α :=
  updateIRQ { c with regIFR := c.regIFR &&& bnot8 flag }

/-- AND of the `readPortA` values of all enabled Port A attachments. -/
def externalInputA (ops : GPIOAttachmentOps α) (c : GPIOCard α) : Nat :=
  (List.range c.portA_attachmentCount).foldl
    (fun v i =>
      match c.portA_attachments i with
      | some a => if ops.isEnabled a then v &&& ops.readPortA c.regDDRA c.regORA a else v
      | none => v) 0xFF

/-- AND of the `readPortB` values of all enabled Port B attachments. -/
def externalInputB (ops : GPIOAttachmentOps α) (c : GPIOCard α) : Nat :=
  (List.range c.portB_attachmentCount).foldl
    (fun v i =>
      match c.portB_attachments i with
      | some a => if ops.isEnabled a then v &&& ops.readPortB c.regDDRB c.regORB a else v
      | none => v) 0xFF

/-- The per-bit DDR multiplexing loop shared by both port reads. -/
def portValue (ddr orv ext : Nat) : Nat :=
  (List.range 8).foldl
    (fun v bit =>
      if ddr &&& (1 <<< bit) ≠ 0 then
        if orv &&& (1 <<< bit) ≠ 0 then v ||| (1 <<< bit) else v &&& bnot8 (1 <<< bit)
      else
        if ext &&& (1 <<< bit) ≠ 0 then v ||| (1 <<< bit) else v &&& bnot8 (1 <<< bit))
    0xFF

def readPortA (ops : GPIOAttachmentOps α) (c : GPIOCard α) : Nat :=
  portValue c.regDDRA c.regORA (externalInputA ops c) &&& 0xFF

def readPortB (ops : GPIOAttachmentOps α) (c : GPIOCard α) : Nat :=
  portValue c.regDDRB c.regORB (externalInputB ops c) &&& 0xFF

/-- Notify every Port A attachment of interrupt clearing. -/
def clearAttachmentsA (ops : GPIOAttachmentOps α) (ca1 ca2 cb1 cb2 : Bool) (c : GPIOCard α) :
    GPIOCard α :=
  (List.range c.portA_attachmentCount).foldl
    (fun c i =>
      match c.portA_attachments i with
      | some a =>
        { c with portA_attachments :=
            updOpt c.portA_attachments i (some (ops.clearInterrupts ca1 ca2 cb1 cb2 a)) }
      | none => c) c

/-- Notify every Port B attachment of interrupt clearing. -/
def clearAttachmentsB (ops : GPIOAttachmentOps α) (ca1 ca2 cb1 cb2 : Bool) (c : GPIOCard α) :
    GPIOCard α :=
  (List.range c.portB_attachmentCount).foldl
    (fun c i =>
      match c.portB_attachments i with
      | some a =>
        { c with portB_attachments :=
            updOpt c.portB_attachments i (some (ops.clearInterrupts ca1 ca2 cb1 cb2 a)) }
      | none => c) c

def writePortA (ops : GPIOAttachmentOps α) (v : Nat) (c : GPIOCard α) : GPIOCard α :=
  (List.range c.portA_attachmentCount).foldl
    (fun c i =>
      match c.portA_attachments i with
      | some a =>
        { c with portA_attachments :=
            updOpt c.portA_attachments i (some (ops.writePortA v c.regDDRA a)) }
      | none => c) c

def writePortB (ops : GPIOAttachmentOps α) (v : Nat) (c : GPIOCard α) : GPIOCard α :=
  (List.range c.portB_attachmentCount).foldl
    (fun c i =>
      match c.portB_attachments i with
      | some a =>
        { c with portB_attachments :=
            updOpt c.portB_attachments i (some (ops.writePortB v c.regDDRB a)) }
      | none => c) c

/-- Push current control-line state to every attachment. -/
def notifyAttachmentsControlLines (ops : GPIOAttachmentOps α) (c : GPIOCard α) : GPIOCard α :=
  let c := (List.range c.portA_attachmentCount).foldl
    (fun c i =>
      match c.portA_attachments i with
      | some a =>
        { c with portA_attachments :=
            updOpt c.portA_attachments i (some (ops.updateControlLines c.CA1 c.CA2 c.CB1 c.CB2 a)) }
      | none => c) c
  (List.range c.portB_attachmentCount).foldl
    (fun c i =>
      match c.portB_attachments i with
      | some a =>
        { c with portB_attachments :=
            updOpt c.portB_attachments i (some (ops.updateControlLines c.CA1 c.CA2 c.CB1 c.CB2 a)) }
      | none => c) c

def updateCA2 (ops : GPIOAttachmentOps α) (c : GPIOCard α) : GPIOCard α :=
  let ca2_control := (c.regPCR >>> 1) &&& 0x07
  let c :=
    match ca2_control with
    | 0x06 => { c with CA2 := false }
    | 0x07 => { c with CA2 := true }
    | _ => c
  notifyAttachmentsControlLines ops c

def updateCB2 (ops : GPIOAttachmentOps α) (c : GPIOCard α) : GPIOCard α :=
  let cb2_control := (c.regPCR >>> 5) &&& 0x07
  let c :=
    match cb2_control with
    | 0x06 => { c with CB2 := false }
    | 0x07 => { c with CB2 := true }
    | _ => c
  notifyAttachmentsControlLines ops c

def read (ops : GPIOAttachmentOps α) (address : Nat) (c : GPIOCard α) : Nat × GPIOCard α :=
  match address &&& 0x0F with
  | 0x00 =>
    let c := clearIRQFlag (IRQ_CB1 ||| IRQ_CB2) c
    let value := readPortB ops c
    let c := clearAttachmentsB ops false false true true c
    (value &&& 0xFF, c)
  | 0x01 =>
    let c := clearIRQFlag (IRQ_CA1 ||| IRQ_CA2) c
    let value := readPortA ops c
    let c := clearAttachmentsA ops true true false false c
    (value &&& 0xFF, c)
  | 0x02 => (c.regDDRB &&& 0xFF, c)
  | 0x03 => (c.regDDRA &&& 0xFF, c)
  | 0x04 =>
    let c := clearIRQFlag IRQ_T1 c
    (c.regT1C &&& 0xFF, c)
  | 0x05 => ((c.regT1C >>> 8) &&& 0xFF, c)
  | 0x06 => (c.regT1L &&& 0xFF, c)
  | 0x07 => ((c.regT1L >>> 8) &&& 0xFF, c)
  | 0x08 =>
    let c := clearIRQFlag IRQ_T2 c
    (c.regT2C &&& 0xFF, c)
  | 0x09 => ((c.regT2C >>> 8) &&& 0xFF, c)
  | 0x0A =>
    let c := clearIRQFlag IRQ_SR c
    (c.regSR &&& 0xFF, c)
  | 0x0B => (c.regACR &&& 0xFF, c)
  | 0x0C => (c.regPCR &&& 0xFF, c)
  | 0x0D =>
    let value := if c.regIFR &&& c.regIER &&& 0x7F ≠ 0 then c.regIFR ||| IRQ_IRQ else c.regIFR
    (value &&& 0xFF, c)
  | 0x0E => ((c.regIER ||| 0x80) &&& 0xFF, c)
  | _ => (readPortA ops c &&& 0xFF, c)

def write (ops : GPIOAttachmentOps α) (address d : Nat) (c : GPIOCard α) : GPIOCard α :=
  let value := d &&& 0xFF
  match address &&& 0x0F with
  | 0x00 =>
    let c := clearIRQFlag (IRQ_CB1 ||| IRQ_CB2) c
    let c := { c with regORB := value }
    writePortB ops value c
  | 0x01 =>
    let c := clearIRQFlag (IRQ_CA1 ||| IRQ_CA2) c
    let c := { c with regORA := value }
    writePortA ops value c
  | 0x02 => { c with regDDRB := value }
  | 0x03 => { c with regDDRA := value }
  | 0x04 | 0x06 => { c with regT1L := (c.regT1L &&& 0xFF00) ||| value }
  | 0x05 =>
    let c := { c with regT1L := (c.regT1L &&& 0x00FF) ||| (value <<< 8) }
    let c := { c with regT1C := c.regT1L }
    let c := clearIRQFlag IRQ_T1 c
    { c with T1_running := true }
  | 0x07 =>
    let c := { c with regT1L := (c.regT1L &&& 0x00FF) ||| (value <<< 8) }
    clearIRQFlag IRQ_T1 c
  | 0x08 => { c with regT2L := value }
  | 0x09 =>
    let c := { c with regT2C := (value <<< 8) ||| c.regT2L }
    let c := clearIRQFlag IRQ_T2 c
    { c with T2_running := true }
  | 0x0A =>
    let c := { c with regSR := value }
    clearIRQFlag IRQ_SR c
  | 0x0B => { c with regACR := value }
  | 0x0C =>
    let c := { c with regPCR := value }
    updateCB2 ops (updateCA2 ops c)
  | 0x0D =>
    updateIRQ { c with regIFR := c.regIFR &&& bnot8 (value &&& 0x7F) }
  | 0x0E =>
    let c :=
      if value &&& 0x80 ≠ 0 then { c with regIER := c.regIER ||| (value &&& 0x7F) }
      else { c with regIER := c.regIER &&& bnot8 (value &&& 0x7F) }
    updateIRQ c
  | _ =>
    let c := { c with regORA := value }
    writePortA ops value c

/-- One VIA tick. The second component records whether the `raiseIRQ`
host callback was invoked (the final enabled-interrupt check). -/
def tick (ops : GPIOAttachmentOps α) (frequency : Nat) (c : GPIOCard α) :
    GPIOCard α × Bool :=
  let c := { c with tickCounter := c.tickCounter + 1 }
  let c :=
    if c.T1_running ∧ c.regT1C > 0 then
      let c := { c with regT1C := c.regT1C - 1 }
      if c.regT1C = 0 then
        let c := setIRQFlag IRQ_T1 c
        let c :=
          if c.regACR &&& 0x40 ≠ 0 then { c with regT1C := c.regT1L }
          else { c with T1_running := false }
        if c.regACR &&& 0x80 ≠ 0 then { c with regORB := c.regORB ^^^ 0x80 } else c
      else c
    else c
  let c :=
    if c.T2_running ∧ c.regT2C > 0 then
      let c := { c with regT2C := c.regT2C - 1 }
      if c.regT2C = 0 then
        let c := setIRQFlag IRQ_T2 c
        { c with T2_running := false }
      else c
    else c
  let c := (List.range c.portA_attachmentCount).foldl
    (fun c i =>
      match c.portA_attachments i with
      | some a =>
        { c with portA_attachments := updOpt c.portA_attachments i (some (ops.tick frequency a)) }
      | none => c) c
  let c := (List.range c.portB_attachmentCount).foldl
    (fun c i =>
      match c.portB_attachments i with
      | some a =>
        { c with portB_attachments := updOpt c.portB_attachments i (some (ops.tick frequency a)) }
      | none => c) c
  let c := (List.range c.portA_attachmentCount).foldl
    (fun c i =>
      match c.portA_attachments i with
      | some a =>
        let c := if ops.hasCA1Interrupt a then setIRQFlag IRQ_CA1 c else c
        if ops.hasCA2Interrupt a then setIRQFlag IRQ_CA2 c else c
      | none => c) c
  let c := (List.range c.portB_attachmentCount).foldl
    (fun c i =>
      match c.portB_attachments i with
      | some a =>
        let c := if ops.hasCB1Interrupt a then setIRQFlag IRQ_CB1 c else c
        if ops.hasCB2Interrupt a then setIRQFlag IRQ_CB2 c else c
      | none => c) c
  (c, decide (c.regIFR &&& c.regIER &&& 0x7F ≠ 0))

end GPIOCard

/-! ## SoundCard (src/components/IO/SoundCard.ts) — MOS 6581 SID

The integer core (register file, oscillators, envelopes) is embedded.
The audio output path (`generateSample`, the state-variable filter and the
sample ring buffer) is floating-point and is not part of the state modelled
here; `clockOneCycle` — which the claims quantify over — never touches it. -/

inductive EnvelopeState where
  | ATTACK
  | DECAY
  | SUSTAIN
  | RELEASE
deriving DecidableEq

structure SIDVoice where
  accumulator : Nat
  frequency : Nat
  pulseWidth : Nat
  control : Nat
  prevGate : Bool
  noiseShift : Nat
  waveformOutput : Nat
  envelopeState : EnvelopeState
  envelopeLevel : Nat
  envelopeCounter : Nat
  attackRate : Nat
  decayRate : Nat
  sustainLevel : Nat
  releaseRate : Nat
  exponentialCounter : Nat
  exponentialCounterPeriod : Nat

namespace SIDVoice

def init : SIDVoice :=
  { accumulator := 0, frequency := 0, pulseWidth := 0, control := 0, prevGate := false,
    noiseShift := 0x7FFFF8, waveformOutput := 0,
    envelopeState := EnvelopeState.RELEASE, envelopeLevel := 0, envelopeCounter := 0,
    attackRate := 0, decayRate := 0, sustainLevel := 0, releaseRate := 0,
    exponentialCounter := 0, exponentialCounterPeriod := 1 }

def reset (_v : SIDVoice) : SIDVoice := init

end SIDVoice

structure SoundCard where
  registers : Nat → Nat
  voices : Fin 3 → SIDVoice
  filterCutoff : Nat
  filterResonance : Nat
  filterRouting : Nat
  filterMode : Nat
  masterVolume : Nat
  cycleAccumulator : Nat
  sampleRate : Nat
  sidClock : Nat

namespace SoundCard

def SID_CLOCK_NTSC : Nat := 1022727
def NUM_REGISTERS : Nat := 29
def CYCLES_PER_TICK : Nat := 128

def CTRL_GATE : Nat := 0x01
def CTRL_SYNC : Nat := 0x02
def CTRL_RING_MOD : Nat := 0x04
def CTRL_TEST : Nat := 0x08
def CTRL_TRIANGLE : Nat := 0x10
def CTRL_SAWTOOTH : Nat := 0x20
def CTRL_PULSE : Nat := 0x40
def CTRL_NOISE : Nat := 0x80

def ATTACK_RATES : List Nat :=
  [2, 8, 16, 24, 38, 56, 68, 80, 100, 250, 500, 800, 1000, 3000, 5000, 8000]

def DECAY_RELEASE_RATES : List Nat :=
  [6, 24, 48, 72, 114, 168, 204, 240, 300, 750, 1500, 2400, 3000, 9000, 15000, 24000]

def SUSTAIN_LEVELS : List Nat :=
  [0x00, 0x11, 0x22, 0x33, 0x44, 0x55, 0x66, 0x77,
   0x88, 0x99, 0xAA, 0xBB, 0xCC, 0xDD, 0xEE, 0xFF]

/-- Construction state (class field initializers). -/
def init : SoundCard :=
  { registers := fun _ => 0, voices := fun _ => SIDVoice.init,
    filterCutoff := 0, filterResonance := 0, filterRouting := 0, filterMode := 0,
    masterVolume := 0, cycleAccumulator := 0,
    sampleRate := 44100, sidClock := SID_CLOCK_NTSC }

def setVoice (i : Fin 3) (v : SIDVoice) (c : SoundCard) : SoundCard :=
  { c with voices := Function.update c.voices i v }

def updateVoiceRegister (voiceIndex : Fin 3) (reg d : Nat) (c : SoundCard) : SoundCard :=
  let voice := c.voices voiceIndex
  match reg with
  | 0 => setVoice voiceIndex { voice with frequency := (voice.frequency &&& 0xFF00) ||| d } c
  | 1 => setVoice voiceIndex { voice with frequency := (voice.frequency &&& 0x00FF) ||| (d <<< 8) } c
  | 2 => setVoice voiceIndex { voice with pulseWidth := (voice.pulseWidth &&& 0x0F00) ||| d } c
  | 3 => setVoice voiceIndex { voice with pulseWidth := (voice.pulseWidth &&& 0x00FF) ||| ((d &&& 0x0F) <<< 8) } c
  | 4 =>
    let gate := d &&& CTRL_GATE ≠ 0
    let prevGate := voice.prevGate
    let voice := { voice with control := d }
    let voice :=
      if d &&& CTRL_TEST ≠ 0 then { voice with accumulator := 0, noiseShift := 0x7FFFF8 }
      else voice
    let voice :=
      if gate ∧ ¬prevGate then
        { voice with envelopeState := EnvelopeState.ATTACK, envelopeCounter := 0,
                     exponentialCounter := 0, exponentialCounterPeriod := 1 }
      else if ¬gate ∧ prevGate then
        { voice with envelopeState := EnvelopeState.RELEASE, envelopeCounter := 0 }
      else voice
    setVoice voiceIndex { voice with prevGate := gate } c
  | 5 => setVoice voiceIndex { voice with attackRate := (d >>> 4) &&& 0x0F, decayRate := d &&& 0x0F } c
  | 6 => setVoice voiceIndex { voice with sustainLevel := (d >>> 4) &&& 0x0F, releaseRate := d &&& 0x0F } c
  | _ => c

def updateGlobalRegister (reg d : Nat) (c : SoundCard) : SoundCard :=
  match reg with
  | 0x15 => { c with filterCutoff := (c.filterCutoff &&& 0x7F8) ||| (d &&& 0x07) }
  | 0x16 => { c with filterCutoff := (c.filterCutoff &&& 0x07) ||| (d <<< 3) }
  | 0x17 => { c with filterResonance := (d >>> 4) &&& 0x0F, filterRouting := d &&& 0x0F }
  | 0x18 => { c with filterMode := d &&& 0xF0, masterVolume := d &&& 0x0F }
  | _ => c

def read (address : Nat) (c : SoundCard) : Nat :=
  match address &&& 0x1F with
  | 0x19 => c.registers 0x19
  | 0x1A => c.registers 0x1A
  | 0x1B => ((c.voices 2).waveformOutput >>> 4) &&& 0xFF
  | 0x1C => (c.voices 2).envelopeLevel
  | _ => 0

def write (address d : Nat) (c : SoundCard) : SoundCard :=
  let reg := address &&& 0x1F
  if reg ≥ NUM_REGISTERS then c
  else
    let c := { c with registers := updFn c.registers reg (d &&& 0xFF) }
    if reg ≤ 0x14 then
      updateVoiceRegister ⟨reg / 7 % 3, Nat.mod_lt _ (by decide)⟩ (reg % 7) d c
    else
      updateGlobalRegister reg d c

def generateWaveform (voiceIndex : Fin 3) (c : SoundCard) : Nat :=
  let voice := c.voices voiceIndex
  let acc := voice.accumulator
  let control := voice.control
  if control &&& 0xF0 = 0 then 0
  else
    let output := 0
    let waveformCount := 0
    let (output, waveformCount) :=
      if control &&& CTRL_TRIANGLE ≠ 0 then
        let tri :=
          if control &&& CTRL_RING_MOD ≠ 0 then
            -- Fin 3 addition wraps, matching the source (voiceIndex + 2) % 3
            let modVoice := c.voices (voiceIndex + 2)
            let msb := ((acc >>> 23) ^^^ (modVoice.accumulator >>> 23)) &&& 1
            if msb ≠ 0 then bnot12 (acc >>> 11) else (acc >>> 11) &&& 0xFFF
          else
            let msb := (acc >>> 23) &&& 1
            if msb ≠ 0 then bnot12 (acc >>> 11) else (acc >>> 11) &&& 0xFFF
        (output ||| tri, waveformCount + 1)
      else (output, waveformCount)
    let (output, waveformCount) :=
      if control &&& CTRL_SAWTOOTH ≠ 0 then
        let saw := (acc >>> 12) &&& 0xFFF
        (if waveformCount > 0 then output &&& saw else saw, waveformCount + 1)
      else (output, waveformCount)
    let (output, waveformCount) :=
      if control &&& CTRL_PULSE ≠ 0 then
        let testBit := control &&& CTRL_TEST ≠ 0
        let pulse :=
          if testBit then 0xFFF
          else if (acc >>> 12) ≥ voice.pulseWidth then 0xFFF else 0x000
        (if waveformCount > 0 then output &&& pulse else pulse, waveformCount + 1)
      else (output, waveformCount)
    let (output, _waveformCount) :=
      if control &&& CTRL_NOISE ≠ 0 then
        let ns := voice.noiseShift
        let noise :=
          ((ns >>> 12) &&& 0x800) ||| ((ns >>> 10) &&& 0x400) |||
          ((ns >>> 7) &&& 0x200) ||| ((ns >>> 5) &&& 0x100) |||
          ((ns >>> 4) &&& 0x080) ||| ((ns >>> 1) &&& 0x040) |||
          ((ns <<< 1) &&& 0x020) ||| ((ns <<< 2) &&& 0x010)
        (if waveformCount > 0 then output &&& noise else noise, waveformCount + 1)
      else (output, waveformCount)
    output &&& 0xFFF

def clockOscillator (voiceIndex : Fin 3) (c : SoundCard) : SoundCard :=
  let voice := c.voices voiceIndex
  if voice.control &&& CTRL_TEST ≠ 0 then c
  else
    let prevAccBit19 := (voice.accumulator >>> 19) &&& 1
    let voice := { voice with accumulator := (voice.accumulator + voice.frequency) &&& 0xFFFFFF }
    let currAccBit19 := (voice.accumulator >>> 19) &&& 1
    let voice :=
      if prevAccBit19 = 0 ∧ currAccBit19 ≠ 0 then
        let bit0 := ((voice.noiseShift >>> 17) ^^^ (voice.noiseShift >>> 22)) &&& 1
        { voice with noiseShift := ((voice.noiseShift <<< 1) ||| bit0) &&& 0x7FFFFF }
      else voice
    let voice :=
      if voice.control &&& CTRL_SYNC ≠ 0 then
        -- Fin 3 addition wraps, matching the source (voiceIndex + 2) % 3
        let syncSource := c.voices (voiceIndex + 2)
        -- JS computes `(acc - freq) >> 23 & 1` on 32-bit signed values: a
        -- negative difference sign-extends, giving bit value 1.
        let prevMSB : Nat :=
          if syncSource.accumulator < syncSource.frequency then 1
          else ((syncSource.accumulator - syncSource.frequency) >>> 23) &&& 1
        let currMSB := (syncSource.accumulator >>> 23) &&& 1
        if prevMSB = 0 ∧ currMSB ≠ 0 then { voice with accumulator := 0 } else voice
      else voice
    let c := setVoice voiceIndex voice c
    setVoice voiceIndex { voice with waveformOutput := generateWaveform voiceIndex c } c

def updateExponentialPeriod (voice : SIDVoice) : SIDVoice :=
  if voice.envelopeLevel ≥ 0x5D then { voice with exponentialCounterPeriod := 1 }
  else if voice.envelopeLevel ≥ 0x36 then { voice with exponentialCounterPeriod := 2 }
  else if voice.envelopeLevel ≥ 0x1A then { voice with exponentialCounterPeriod := 4 }
  else if voice.envelopeLevel ≥ 0x0E then { voice with exponentialCounterPeriod := 8 }
  else if voice.envelopeLevel ≥ 0x06 then { voice with exponentialCounterPeriod := 16 }
  else { voice with exponentialCounterPeriod := 30 }

def clockEnvelope (voiceIndex : Fin 3) (c : SoundCard) : SoundCard :=
  let voice := c.voices voiceIndex
  let voice := { voice with envelopeCounter := voice.envelopeCounter + 1 }
  let voice :=
    match voice.envelopeState with
    | EnvelopeState.ATTACK =>
      let rate := ATTACK_RATES.getD voice.attackRate 0
      if voice.envelopeCounter ≥ rate then
        let voice := { voice with envelopeCounter := 0, envelopeLevel := voice.envelopeLevel + 1 }
        if voice.envelopeLevel ≥ 0xFF then
          updateExponentialPeriod
            { voice with envelopeLevel := 0xFF, envelopeState := EnvelopeState.DECAY,
                         envelopeCounter := 0, exponentialCounter := 0 }
        else voice
      else voice
    | EnvelopeState.DECAY =>
      let rate := DECAY_RELEASE_RATES.getD voice.decayRate 0
      if voice.envelopeCounter ≥ rate then
        let voice := { voice with envelopeCounter := 0,
                                  exponentialCounter := voice.exponentialCounter + 1 }
        if voice.exponentialCounter ≥ voice.exponentialCounterPeriod then
          let voice := { voice with exponentialCounter := 0 }
          let voice :=
            if voice.envelopeLevel > SUSTAIN_LEVELS.getD voice.sustainLevel 0 then
              updateExponentialPeriod { voice with envelopeLevel := voice.envelopeLevel - 1 }
            else voice
          if voice.envelopeLevel ≤ SUSTAIN_LEVELS.getD voice.sustainLevel 0 then
            { voice with envelopeLevel := SUSTAIN_LEVELS.getD voice.sustainLevel 0,
                         envelopeState := EnvelopeState.SUSTAIN }
          else voice
        else voice
      else voice
    | EnvelopeState.SUSTAIN =>
      { voice with envelopeLevel := SUSTAIN_LEVELS.getD voice.sustainLevel 0 }
    | EnvelopeState.RELEASE =>
      let rate := DECAY_RELEASE_RATES.getD voice.releaseRate 0
      if voice.envelopeCounter ≥ rate then
        let voice := { voice with envelopeCounter := 0,
                                  exponentialCounter := voice.exponentialCounter + 1 }
        if voice.exponentialCounter ≥ voice.exponentialCounterPeriod then
          let voice := { voice with exponentialCounter := 0 }
          if voice.envelopeLevel > 0 then
            updateExponentialPeriod { voice with envelopeLevel := voice.envelopeLevel - 1 }
          else voice
        else voice
      else voice
  setVoice voiceIndex voice c

/-- One SID clock cycle: advance oscillator and envelope of each voice. -/
def clockOneCycle (c : SoundCard) : SoundCard :=
  [(0 : Fin 3), 1, 2].foldl (fun c i => clockEnvelope i (clockOscillator i c)) c

/-- States reachable from construction through register writes (byte data)
and SID clock cycles — exactly the operations the claim quantifies over. -/
inductive Reach : SoundCard → Prop where
  | init : Reach SoundCard.init
  | wr (a d : Nat) {c : SoundCard} : d < 256 → Reach c → Reach (write a d c)
  | ck {c : SoundCard} : Reach c → Reach (clockOneCycle c)

end SoundCard

/-! ## VideoCard (src/components/IO/VideoCard.ts) — TMS9918 VDP

The scanline pacing in `tick` divides the CPU frequency into fractional
cycles-per-scanline (floating point); claims here are about the per-scanline
processing itself, so `tick` is not embedded and `cycleAccumulator` is
carried as an inert field. -/

inductive TmsMode where
  | GRAPHICS_I
  | GRAPHICS_II
  | TEXT
  | MULTICOLOR
deriving DecidableEq

/-- TMS9918 palette: RGBA components per color index (index ≤ 15 always). -/
def TMS_PALETTE : Nat → List Nat
  | 0 => [0x00, 0x00, 0x00, 0xFF]
  | 1 => [0x00, 0x00, 0x00, 0xFF]
  | 2 => [0x21, 0xC9, 0x42, 0xFF]
  | 3 => [0x5E, 0xDC, 0x78, 0xFF]
  | 4 => [0x54, 0x55, 0xED, 0xFF]
  | 5 => [0x7D, 0x75, 0xFC, 0xFF]
  | 6 => [0xD3, 0x52, 0x4D, 0xFF]
  | 7 => [0x43, 0xEB, 0xF6, 0xFF]
  | 8 => [0xFD, 0x55, 0x54, 0xFF]
  | 9 => [0xFF, 0x79, 0x78, 0xFF]
  | 10 => [0xD3, 0xC1, 0x53, 0xFF]
  | 11 => [0xE5, 0xCE, 0x80, 0xFF]
  | 12 => [0x21, 0xB0, 0x3C, 0xFF]
  | 13 => [0xC9, 0x5B, 0xBA, 0xFF]
  | 14 => [0xCC, 0xCC, 0xCC, 0xFF]
  | _ => [0xFF, 0xFF, 0xFF, 0xFF]

structure VideoCard where
  registers : Nat → Nat
  status : Nat
  currentAddress : Nat
  regWriteStage : Nat
  regWriteStage0Value : Nat
  readAheadBuffer : Nat
  mode : TmsMode
  vram : Nat → Nat
  rowSpriteBits : Nat → Nat
  scanlinePixels : Nat → Nat
  buffer : Nat → Nat
  cycleAccumulator : Nat
  currentScanline : Nat

namespace VideoCard

def VRAM_SIZE : Nat := 1 <<< 14
def VRAM_MASK : Nat := VRAM_SIZE - 1
def TMS_PIXELS_X : Nat := 256
def TMS_PIXELS_Y : Nat := 192
def DISPLAY_WIDTH : Nat := 320
def DISPLAY_HEIGHT : Nat := 240
def GRAPHICS_NUM_COLS : Nat := 32
def GRAPHICS_CHAR_WIDTH : Nat := 8
def TEXT_NUM_COLS : Nat := 40
def TEXT_CHAR_WIDTH : Nat := 6
def TEXT_PADDING_PX : Nat := 8
def PATTERN_BYTES : Nat := 8
def LAST_SPRITE_YPOS : Nat := 0xD0
def MAX_SPRITES : Nat := 32
def MAX_SCANLINE_SPRITES : Nat := 4
def STATUS_INT : Nat := 0x80
def STATUS_5S : Nat := 0x40
def STATUS_COL : Nat := 0x20
def TOTAL_SCANLINES : Nat := 262
def BORDER_X : Nat := (DISPLAY_WIDTH - TMS_PIXELS_X) / 2
def BORDER_Y : Nat := (DISPLAY_HEIGHT - TMS_PIXELS_Y) / 2

def updateMode (c : VideoCard) : VideoCard :=
  if c.registers 0 &&& 0x02 ≠ 0 then { c with mode := TmsMode.GRAPHICS_II }
  else
    match (c.registers 1 &&& (0x08 ||| 0x10)) >>> 3 with
    | 1 => { c with mode := TmsMode.MULTICOLOR }
    | 2 => { c with mode := TmsMode.TEXT }
    | _ => { c with mode := TmsMode.GRAPHICS_I }

def nameTableAddr (c : VideoCard) : Nat := (c.registers 2 &&& 0x0F) <<< 10

def colorTableAddr (c : VideoCard) : Nat :=
  (c.registers 3 &&& (if c.mode = TmsMode.GRAPHICS_II then 0x80 else 0xFF)) <<< 6

def patternTableAddr (c : VideoCard) : Nat :=
  (c.registers 4 &&& (if c.mode = TmsMode.GRAPHICS_II then 0x04 else 0x07)) <<< 11

def spriteAttrTableAddr (c : VideoCard) : Nat := (c.registers 5 &&& 0x7F) <<< 7

def spritePatternTableAddr (c : VideoCard) : Nat := (c.registers 6 &&& 0x07) <<< 11

def mainBgColor (c : VideoCard) : Nat := c.registers 7 &&& 0x0F

def mainFgColor (c : VideoCard) : Nat :=
  let fg := c.registers 7 >>> 4
  if fg = 0 then mainBgColor c else fg

def fgColor (c : VideoCard) (colorByte : Nat) : Nat :=
  let col := colorByte >>> 4
  if col = 0 then mainBgColor c else col

def bgColor (c : VideoCard) (colorByte : Nat) : Nat :=
  let col := colorByte &&& 0x0F
  if col = 0 then mainBgColor c else col

def spriteSize (c : VideoCard) : Nat := if c.registers 1 &&& 0x02 ≠ 0 then 16 else 8

def spriteMag (c : VideoCard) : Bool := c.registers 1 &&& 0x01 ≠ 0

def displayEnabled (c : VideoCard) : Bool := c.registers 1 &&& 0x40 ≠ 0

def writeAddr (d : Nat) (c : VideoCard) : VideoCard :=
  if c.regWriteStage = 0 then
    { c with regWriteStage0Value := d, regWriteStage := 1 }
  else
    let c :=
      if d &&& 0x80 ≠ 0 then
        updateMode { c with registers := updFn c.registers (d &&& 0x07) (c.regWriteStage0Value &&& 0xFF) }
      else
        let c := { c with currentAddress := c.regWriteStage0Value ||| ((d &&& 0x3F) <<< 8) }
        if d &&& 0x40 = 0 then
          { c with readAheadBuffer := c.vram (c.currentAddress &&& VRAM_MASK),
                   currentAddress := c.currentAddress + 1 }
        else c
    { c with regWriteStage := 0 }

def writeData (d : Nat) (c : VideoCard) : VideoCard :=
  { c with regWriteStage := 0,
           readAheadBuffer := d,
           vram := updFn c.vram (c.currentAddress &&& VRAM_MASK) (d &&& 0xFF),
           currentAddress := c.currentAddress + 1 }

def readStatus (c : VideoCard) : Nat × VideoCard :=
  (c.status, { c with status := 0, regWriteStage := 0 })

def readData (c : VideoCard) : Nat × VideoCard :=
  (c.readAheadBuffer,
   { c with regWriteStage := 0,
            readAheadBuffer := c.vram (c.currentAddress &&& VRAM_MASK),
            currentAddress := c.currentAddress + 1 })

def read (address : Nat) (c : VideoCard) : Nat × VideoCard :=
  if address &&& 1 ≠ 0 then readStatus c else readData c

def write (address d : Nat) (c : VideoCard) : VideoCard :=
  if address &&& 1 ≠ 0 then writeAddr d c else writeData d c

/-- The `fillBackground` loop: `n` remaining iterations, writing the four
RGBA components at byte index `i`, `i+4`, ... (source steps `i` by 4). -/
def fillBgLoop : Nat → Nat → Nat → Nat → Nat → Nat → (Nat → Nat) → (Nat → Nat)
  | 0, _, _, _, _, _, buf => buf
  | n + 1, i, r, g, b, a, buf =>
    fillBgLoop n (i + 4) r g b a
      (updFn (updFn (updFn (updFn buf i r) (i + 1) g) (i + 2) b) (i + 3) a)

/-- Fill the whole 320x240x4 output buffer with the backdrop color
(76800 pixels, buffer length 307200). -/
def fillBackground (c : VideoCard) : VideoCard :=
  let pal := TMS_PALETTE (mainBgColor c)
  { c with buffer :=
      (fillBgLoop (DISPLAY_WIDTH * DISPLAY_HEIGHT) 0
        (pal.getD 0 0) (pal.getD 1 0) (pal.getD 2 0) (pal.getD 3 0) c.buffer) }

/-- The `writeScanlineToBuffer` inner loop over the 256 active pixels. -/
def scanOutLoop : Nat → Nat → Nat → (Nat → Nat) → (Nat → Nat) → (Nat → Nat)
  | 0, _, _, _, buf => buf
  | n + 1, x, rowOffset, pixels, buf =>
    let offset := rowOffset + (BORDER_X + x) * 4
    let pal := TMS_PALETTE (pixels x &&& 0x0F)
    scanOutLoop n (x + 1) rowOffset pixels
      (updFn (updFn (updFn (updFn buf offset (pal.getD 0 0)) (offset + 1) (pal.getD 1 0))
        (offset + 2) (pal.getD 2 0)) (offset + 3) (pal.getD 3 0))

def writeScanlineToBuffer (y : Nat) (c : VideoCard) : VideoCard :=
  let bufferY := y + BORDER_Y
  if bufferY < DISPLAY_HEIGHT then
    { c with buffer := (scanOutLoop TMS_PIXELS_X 0 (bufferY * DISPLAY_WIDTH * 4) c.scanlinePixels c.buffer) }
  else c

/-- Graphics I inner loop over the 8 pattern bits of one tile
(`pattByte` shifts left each pixel). -/
def gfx1BitLoop : Nat → Nat → Nat → Nat → Nat → (Nat → Nat) → (Nat → Nat)
  | 0, _, _, _, _, px => px
  | n + 1, pos, pattByte, fg, bg, px =>
    gfx1BitLoop n (pos + 1) ((pattByte <<< 1) &&& 0xFF) fg bg
      (updFn px pos (if pattByte &&& 0x80 ≠ 0 then fg else bg))

/-- Graphics I tile loop (32 tiles per scanline). -/
def gfx1TileLoop (c : VideoCard) (rowNamesAddr patternBase colorBase pattRow : Nat) :
    Nat → Nat → (Nat → Nat) → (Nat → Nat)
  | 0, _, px => px
  | n + 1, tileX, px =>
    let pattIdx := c.vram ((rowNamesAddr + tileX) &&& VRAM_MASK)
    let pattByte := c.vram ((patternBase + pattIdx * PATTERN_BYTES + pattRow) &&& VRAM_MASK)
    let colorByte := c.vram ((colorBase + (pattIdx >>> 3)) &&& VRAM_MASK)
    let fg := fgColor c colorByte
    let bg := bgColor c colorByte
    gfx1TileLoop c rowNamesAddr patternBase colorBase pattRow n (tileX + 1)
      (gfx1BitLoop GRAPHICS_CHAR_WIDTH (tileX * GRAPHICS_CHAR_WIDTH) pattByte fg bg px)

/-- Bit loop testing `(pattByte << bit) & 0x80` (Graphics II and Text). -/
def gfx2BitLoop : Nat → Nat → Nat → Nat → Nat → Nat → (Nat → Nat) → (Nat → Nat)
  | 0, _, _, _, _, _, px => px
  | n + 1, base, bit, pattByte, fg, bg, px =>
    gfx2BitLoop n base (bit + 1) pattByte fg bg
      (updFn px (base + bit) (if (pattByte <<< bit) &&& 0x80 ≠ 0 then fg else bg))

/-- Graphics II tile loop. -/
def gfx2TileLoop (c : VideoCard) (rowNamesAddr patternBase colorBase pattRow nameMask : Nat) :
    Nat → Nat → (Nat → Nat) → (Nat → Nat)
  | 0, _, px => px
  | n + 1, tileX, px =>
    let pattIdx := c.vram ((rowNamesAddr + tileX) &&& VRAM_MASK) &&& nameMask
    let pattRowOffset := pattIdx * PATTERN_BYTES + pattRow
    let pattByte := c.vram ((patternBase + pattRowOffset) &&& VRAM_MASK)
    let colorByte := c.vram ((colorBase + pattRowOffset) &&& VRAM_MASK)
    let fg := fgColor c colorByte
    let bg := bgColor c colorByte
    gfx2TileLoop c rowNamesAddr patternBase colorBase pattRow nameMask n (tileX + 1)
      (gfx2BitLoop GRAPHICS_CHAR_WIDTH (tileX * GRAPHICS_CHAR_WIDTH) 0 pattByte fg bg px)

/-- Text-mode padding loop (8 border pixels on each side painted bg). -/
def textPadLoop : Nat → Nat → Nat → (Nat → Nat) → (Nat → Nat)
  | 0, _, _, px => px
  | n + 1, i, bg, px =>
    textPadLoop n (i + 1) bg
      (updFn (updFn px i bg) (TMS_PIXELS_X - TEXT_PADDING_PX + i) bg)

/-- Text tile loop (40 tiles of 6 pixels). -/
def textTileLoop (c : VideoCard) (rowNamesAddr patternBase pattRow fg bg : Nat) :
    Nat → Nat → (Nat → Nat) → (Nat → Nat)
  | 0, _, px => px
  | n + 1, tileX, px =>
    let pattIdx := c.vram ((rowNamesAddr + tileX) &&& VRAM_MASK)
    let pattByte := c.vram ((patternBase + pattIdx * PATTERN_BYTES + pattRow) &&& VRAM_MASK)
    textTileLoop c rowNamesAddr patternBase pattRow fg bg n (tileX + 1)
      (gfx2BitLoop TEXT_CHAR_WIDTH (TEXT_PADDING_PX + tileX * TEXT_CHAR_WIDTH) 0 pattByte fg bg px)

/-- Write `n` consecutive pixels of value `v` (multicolor half-blocks). -/
def fillPixRange : Nat → Nat → Nat → (Nat → Nat) → (Nat → Nat)
  | 0, _, _, px => px
  | n + 1, i, v, px => fillPixRange n (i + 1) v (updFn px i v)

/-- Multicolor tile loop. -/
def mcTileLoop (c : VideoCard) (namesAddr patternBase pattRow : Nat) :
    Nat → Nat → (Nat → Nat) → (Nat → Nat)
  | 0, _, px => px
  | n + 1, tileX, px =>
    let pattIdx := c.vram ((namesAddr + tileX) &&& VRAM_MASK)
    let colorByte := c.vram ((patternBase + pattIdx * PATTERN_BYTES + pattRow) &&& VRAM_MASK)
    let fg := fgColor c colorByte
    let bg := bgColor c colorByte
    let base := tileX * 8
    mcTileLoop c namesAddr patternBase pattRow n (tileX + 1)
      (fillPixRange 4 (base + 4) bg (fillPixRange 4 base fg px))

/-- Inner sprite pixel loop: `n` remaining screen positions starting at
screen bit `screenBit` (screen x = `xPos + screenBit`, possibly negative). -/
def spritePixLoop (xPos : Int) (mag sprite16 : Bool) (pattOffset spriteColor : Nat) :
    Nat → Nat → Nat → Nat → VideoCard → VideoCard
  | 0, _, _, _, c => c
  | n + 1, screenBit, pattByte, pattBit, c =>
    let screenX : Int := xPos + screenBit
    let c :=
      if 0 ≤ screenX then
        let sx := screenX.toNat
        if pattByte &&& 0x80 ≠ 0 then
          let c :=
            if spriteColor ≠ 0 ∧ c.rowSpriteBits sx < 2 then
              { c with scanlinePixels := updFn c.scanlinePixels sx spriteColor }
            else c
          if c.rowSpriteBits sx ≠ 0 then { c with status := c.status ||| STATUS_COL }
          else { c with rowSpriteBits := updFn c.rowSpriteBits sx (spriteColor + 1) }
        else c
      else c
    let next : Nat × Nat :=
      if ¬mag ∨ screenBit &&& 0x01 ≠ 0 then
        let pattByte := (pattByte <<< 1) &&& 0xFF
        let pattBit := pattBit + 1
        if pattBit = GRAPHICS_CHAR_WIDTH ∧ sprite16 then
          (c.vram ((pattOffset + PATTERN_BYTES * 2) &&& VRAM_MASK), 0)
        else (pattByte, pattBit)
      else (pattByte, pattBit)
    spritePixLoop xPos mag sprite16 pattOffset spriteColor n (screenBit + 1) next.1 next.2 c

/-- Sprite scan over the attribute table with the sentinel and
fifth-sprite early exits. -/
def spriteLoop (mag sprite16 : Bool) (sprSize spriteSizePx attrTableAddr pattTableAddr y : Nat) :
    Nat → Nat → Nat → VideoCard → VideoCard
  | 0, _, _, c => c
  | n + 1, spriteIdx, spritesShown, c =>
    let attrBase := attrTableAddr + spriteIdx * 4
    let yPosRaw := c.vram ((attrBase + 0) &&& VRAM_MASK)
    if yPosRaw = LAST_SPRITE_YPOS then
      if c.status &&& STATUS_5S = 0 then { c with status := c.status ||| spriteIdx } else c
    else
      let yPos : Int := (if yPosRaw > 0xE0 then (yPosRaw : Int) - 256 else (yPosRaw : Int)) + 1
      -- JS `>>= 1` on a signed value is a floor division by 2
      let pattRowI : Int := if mag then ((y : Int) - yPos).fdiv 2 else (y : Int) - yPos
      if pattRowI < 0 ∨ pattRowI ≥ (sprSize : Int) then
        spriteLoop mag sprite16 sprSize spriteSizePx attrTableAddr pattTableAddr y n
          (spriteIdx + 1) spritesShown c
      else
        let pattRow := pattRowI.toNat
        let c := if spritesShown = 0 then { c with rowSpriteBits := fun _ => 0 } else c
        let spriteColor := c.vram ((attrBase + 3) &&& VRAM_MASK) &&& 0x0F
        let spritesShown := spritesShown + 1
        if spritesShown > MAX_SCANLINE_SPRITES then
          if c.status &&& STATUS_5S = 0 then
            { c with status := c.status ||| STATUS_5S ||| spriteIdx }
          else c
        else
          let pattIdx := c.vram ((attrBase + 2) &&& VRAM_MASK)
          let pattOffset := pattTableAddr + pattIdx * PATTERN_BYTES + pattRow
          let earlyClockBit := c.vram ((attrBase + 3) &&& VRAM_MASK) &&& 0x80
          let xPos : Int := (c.vram ((attrBase + 1) &&& VRAM_MASK) : Int) +
            (if earlyClockBit ≠ 0 then -32 else 0)
          let pattByte := c.vram (pattOffset &&& VRAM_MASK)
          let endXPos : Int := min (xPos + (spriteSizePx : Int)) (TMS_PIXELS_X : Int)
          let c := spritePixLoop xPos mag sprite16 pattOffset spriteColor
            (endXPos - xPos).toNat 0 pattByte 0 c
          spriteLoop mag sprite16 sprSize spriteSizePx attrTableAddr pattTableAddr y n
            (spriteIdx + 1) spritesShown c

def outputSprites (y : Nat) (c : VideoCard) : VideoCard :=
  let mag := spriteMag c
  let sprite16 := spriteSize c = 16
  let sprSize := spriteSize c
  let spriteSizePx := sprSize * (if mag then 2 else 1)
  let attrTableAddr := spriteAttrTableAddr c
  let pattTableAddr := spritePatternTableAddr c
  let c := if y = 0 then { c with status := 0 } else c
  spriteLoop mag sprite16 sprSize spriteSizePx attrTableAddr pattTableAddr y MAX_SPRITES 0 0 c

def graphicsIScanLine (y : Nat) (c : VideoCard) : VideoCard :=
  let tileY := y >>> 3
  let pattRow := y &&& 0x07
  let rowNamesAddr := nameTableAddr c + tileY * GRAPHICS_NUM_COLS
  let c := { c with scanlinePixels :=
    (gfx1TileLoop c rowNamesAddr (patternTableAddr c) (colorTableAddr c) pattRow
      GRAPHICS_NUM_COLS 0 c.scanlinePixels) }
  outputSprites y c

def graphicsIIScanLine (y : Nat) (c : VideoCard) : VideoCard :=
  let tileY := y >>> 3
  let pattRow := y &&& 0x07
  let rowNamesAddr := nameTableAddr c + tileY * GRAPHICS_NUM_COLS
  let nameMask := ((c.registers 3 &&& 0x7F) <<< 3) ||| 0x07
  let pageThird := ((tileY &&& 0x18) >>> 3) &&& (c.registers 4 &&& 0x03)
  let pageOffset := pageThird <<< 11
  let patternBase := patternTableAddr c + pageOffset
  let colorBase := colorTableAddr c + (pageOffset &&& ((c.registers 3 &&& 0x60) <<< 6))
  let c := { c with scanlinePixels :=
    (gfx2TileLoop c rowNamesAddr patternBase colorBase pattRow nameMask
      GRAPHICS_NUM_COLS 0 c.scanlinePixels) }
  outputSprites y c

def textScanLine (y : Nat) (c : VideoCard) : VideoCard :=
  let tileY := y >>> 3
  let pattRow := y &&& 0x07
  let rowNamesAddr := nameTableAddr c + tileY * TEXT_NUM_COLS
  let patternBase := patternTableAddr c
  let bg := mainBgColor c
  let fg := mainFgColor c
  let px := textPadLoop TEXT_PADDING_PX 0 bg c.scanlinePixels
  { c with scanlinePixels := textTileLoop c rowNamesAddr patternBase pattRow fg bg TEXT_NUM_COLS 0 px }

def multicolorScanLine (y : Nat) (c : VideoCard) : VideoCard :=
  let tileY := y >>> 3
  let pattRow := (y / 4 &&& 0x01) + (tileY &&& 0x03) * 2
  let namesAddr := nameTableAddr c + tileY * GRAPHICS_NUM_COLS
  let c := { c with scanlinePixels :=
    (mcTileLoop c namesAddr (patternTableAddr c) pattRow GRAPHICS_NUM_COLS 0 c.scanlinePixels) }
  outputSprites y c

/-- One scanline render. The second component records whether the vertical
interrupt (`raiseIRQ`) fired. A disabled display (or an out-of-range line)
fills the pixel line with the backdrop (`Uint8Array.fill`). -/
def renderScanline (y : Nat) (c : VideoCard) : VideoCard × Bool :=
  let c :=
    if ¬displayEnabled c ∨ y ≥ TMS_PIXELS_Y then
      { c with scanlinePixels := fun _ => mainBgColor c }
    else
      match c.mode with
      | TmsMode.GRAPHICS_I => graphicsIScanLine y c
      | TmsMode.GRAPHICS_II => graphicsIIScanLine y c
      | TmsMode.TEXT => textScanLine y c
      | TmsMode.MULTICOLOR => multicolorScanLine y c
  let (c, irq) :=
    if y = TMS_PIXELS_Y - 1 ∧ c.registers 1 &&& 0x20 ≠ 0 then
      ({ c with status := c.status ||| STATUS_INT }, true)
    else (c, false)
  (writeScanlineToBuffer y c, irq)

/-- Process the current scanline and advance the scanline counter. -/
def processScanline (c : VideoCard) : VideoCard × Bool :=
  let c := if c.currentScanline = 0 then fillBackground c else c
  let (c, irq) :=
    if c.currentScanline < TMS_PIXELS_Y then renderScanline c.currentScanline c
    else (c, false)
  let c := { c with currentScanline := c.currentScanline + 1 }
  let c := if c.currentScanline ≥ TOTAL_SCANLINES then { c with currentScanline := 0 } else c
  (c, irq)

def reset (_coldStart : Bool) (c : VideoCard) : VideoCard :=
  let c := { c with regWriteStage0Value := 0, currentAddress := 0, regWriteStage := 0,
                    status := 0, readAheadBuffer := 0, registers := fun _ => 0,
                    cycleAccumulator := 0, currentScanline := 0 }
  -- VRAM intentionally left as is (matches the source comment)
  fillBackground (updateMode c)

/-- Construction state (class field initializers; the constructor itself
performs no reset). -/
def init : VideoCard :=
  { registers := fun _ => 0, status := 0, currentAddress := 0,
    regWriteStage := 0, regWriteStage0Value := 0, readAheadBuffer := 0,
    mode := TmsMode.GRAPHICS_I, vram := fun _ => 0,
    rowSpriteBits := fun _ => 0, scanlinePixels := fun _ => 0,
    buffer := fun _ => 0, cycleAccumulator := 0, currentScanline := 0 }

end VideoCard

/-! ## RTCCard (src/components/RTCCard.ts) — DS1511Y real-time clock

Only the bus-facing `read`/`write` state machine is embedded (that is what
the machine bus dispatch needs); `tick` and the host-clock seeding of the
constructor are out of the claims' scope. The `raiseIRQ` callback of
`raiseInterruptIfEnabled` is not tracked, its `controlA` effect is. -/

structure RTCCard where
  userSeconds : Nat
  userMinutes : Nat
  userHours : Nat
  userDayOfWeek : Nat
  userDate : Nat
  userMonth : Nat
  monthControl : Nat
  userYear : Nat
  userCentury : Nat
  internalSeconds : Nat
  internalMinutes : Nat
  internalHours : Nat
  internalDayOfWeek : Nat
  internalDate : Nat
  internalMonth : Nat
  internalYear : Nat
  internalCentury : Nat
  alarmSeconds : Nat
  alarmMinutes : Nat
  alarmHours : Nat
  alarmDayDate : Nat
  watchdog1 : Nat
  watchdog2 : Nat
  watchdogCounterCentis : Nat
  watchdogCycleCounter : Nat
  controlA : Nat
  controlB : Nat
  ramAddress : Nat
  ramData : Nat → Nat
  cycleCounter : Nat
  cpuFrequency : Nat
  transferCycleCounter : Nat
  pendingUserToInternal : Bool
  userSyncNeeded : Bool
  lastTEEnabled : Bool

namespace RTCCard

/-- Construction state. The real constructor seeds the internal time from
the host wall clock (a host boundary outside the core contract); fixed
initial time values stand in for it here, with the same structure:
internal time copied to the user registers and `monthControl = 0x80`. -/
def init : RTCCard :=
  { userSeconds := 0, userMinutes := 0, userHours := 0, userDayOfWeek := 1,
    userDate := 1, userMonth := 1, monthControl := 0x80, userYear := 0, userCentury := 0x20,
    internalSeconds := 0, internalMinutes := 0, internalHours := 0, internalDayOfWeek := 1,
    internalDate := 1, internalMonth := 1, internalYear := 0, internalCentury := 0x20,
    alarmSeconds := 0, alarmMinutes := 0, alarmHours := 0, alarmDayDate := 0,
    watchdog1 := 0, watchdog2 := 0, watchdogCounterCentis := 0, watchdogCycleCounter := 0,
    controlA := 0, controlB := 0, ramAddress := 0, ramData := fun _ => 0,
    cycleCounter := 0, cpuFrequency := 2000000, transferCycleCounter := 0,
    pendingUserToInternal := false, userSyncNeeded := false, lastTEEnabled := false }

def getTransferCyclesRequired (c : RTCCard) : Nat :=
  max 1 ((c.cpuFrequency * 366 + 999999) / 1000000)

def copyUserToInternal (c : RTCCard) : RTCCard :=
  { c with internalSeconds := c.userSeconds, internalMinutes := c.userMinutes,
           internalHours := c.userHours, internalDayOfWeek := c.userDayOfWeek,
           internalDate := c.userDate, internalMonth := c.userMonth,
           internalYear := c.userYear, internalCentury := c.userCentury }

def markUserTimeWrite (c : RTCCard) : RTCCard :=
  let c := { c with pendingUserToInternal := true }
  if c.controlB &&& 0x80 ≠ 0 ∧ c.transferCycleCounter ≥ getTransferCyclesRequired c then
    { (copyUserToInternal c) with pendingUserToInternal := false, userSyncNeeded := false }
  else c

def decodeWatchdogCentis (c : RTCCard) : Nat :=
  let hundredths := c.watchdog1 &&& 0x0F
  let tenths := (c.watchdog1 >>> 4) &&& 0x0F
  let seconds := c.watchdog2 &&& 0x0F
  let tensSeconds := (c.watchdog2 >>> 4) &&& 0x0F
  (tensSeconds * 10 + seconds) * 100 + (tenths * 10 + hundredths)

def reloadWatchdog (c : RTCCard) : RTCCard :=
  { c with watchdogCounterCentis := decodeWatchdogCentis c, watchdogCycleCounter := 0 }

/-- `raiseInterruptIfEnabled`: sets IRQF when the flag and enable match.
The host `raiseIRQ` call itself is not tracked. -/
def raiseInterruptIfEnabled (flagMask enableMask : Nat) (c : RTCCard) : RTCCard :=
  if c.controlA &&& flagMask = 0 then c
  else if c.controlB &&& enableMask = 0 then c
  else { c with controlA := c.controlA ||| 0x01 }

def read (address : Nat) (c : RTCCard) : Nat × RTCCard :=
  match address &&& 0x1F with
  | 0x00 => (c.userSeconds, c)
  | 0x01 => (c.userMinutes, c)
  | 0x02 => (c.userHours, c)
  | 0x03 => (c.userDayOfWeek &&& 0x07, c)
  | 0x04 => (c.userDate, c)
  | 0x05 => (c.userMonth ||| c.monthControl, c)
  | 0x06 => (c.userYear, c)
  | 0x07 => (c.userCentury, c)
  | 0x08 => (c.alarmSeconds, c)
  | 0x09 => (c.alarmMinutes, c)
  | 0x0A => (c.alarmHours, c)
  | 0x0B => (c.alarmDayDate, c)
  | 0x0C => (c.watchdog1, c)
  | 0x0D => (c.watchdog2, c)
  | 0x0E => (c.controlA, { c with controlA := c.controlA &&& 0xF0 })
  | 0x0F => (c.controlB, c)
  | 0x10 => (c.ramAddress, c)
  | 0x11 => (0, c)
  | 0x12 => (0, c)
  | 0x13 =>
    let value := c.ramData c.ramAddress
    if c.controlB &&& 0x20 ≠ 0 then (value, { c with ramAddress := (c.ramAddress + 1) &&& 0xFF })
    else (value, c)
  | _ => (0, c)

def write (address d : Nat) (c : RTCCard) : RTCCard :=
  let d := d &&& 0xFF
  match address &&& 0x1F with
  | 0x00 => markUserTimeWrite { c with userSeconds := d }
  | 0x01 => markUserTimeWrite { c with userMinutes := d }
  | 0x02 => markUserTimeWrite { c with userHours := d }
  | 0x03 => markUserTimeWrite { c with userDayOfWeek := d &&& 0x07 }
  | 0x04 => markUserTimeWrite { c with userDate := d }
  | 0x05 => markUserTimeWrite { c with userMonth := d &&& 0x1F, monthControl := d &&& 0xE0 }
  | 0x06 => markUserTimeWrite { c with userYear := d }
  | 0x07 => markUserTimeWrite { c with userCentury := d }
  | 0x08 => { c with alarmSeconds := d }
  | 0x09 => { c with alarmMinutes := d }
  | 0x0A => { c with alarmHours := d }
  | 0x0B => { c with alarmDayDate := d }
  | 0x0C => reloadWatchdog { c with watchdog1 := d }
  | 0x0D => reloadWatchdog { c with watchdog2 := d }
  | 0x0E => { c with controlA := (d &&& 0xF0) ||| ((c.controlA &&& 0x0F) &&& bnot8 (d &&& 0x0F)) }
  | 0x0F =>
    let c := { c with controlB := d }
    let c := raiseInterruptIfEnabled 0x04 0x04 c
    if c.controlB &&& 0x02 ≠ 0 then reloadWatchdog c else c
  | 0x10 => { c with ramAddress := d }
  | 0x11 => c
  | 0x12 => c
  | 0x13 =>
    let c := { c with ramData := updFn c.ramData c.ramAddress d }
    if c.controlB &&& 0x20 ≠ 0 then { c with ramAddress := (c.ramAddress + 1) &&& 0xFF }
    else c
  | _ => c

end RTCCard

/-! ## RAM, ROM, Cart, CPU (sources not under src/)

Modelled from the spec: the RAM, ROM, Cart and CPU class sources are not in
the provided tree (only callers and tests are). The spec describes them as:
RAM — a passive 32KB byte store at `0x0000-0x7FFF` (reads and writes by
address); ROM — a read-only byte store whose code region `0xA000-0xFFFF`
(`CODE`..`END`) maps bus address `a` to content at `a - START`; Cart — a
read-only store overlaying `0xC000-0xFFFF`; CPU — registers and cycle
counters, untouched by bus dispatch. -/

/-- Modelled from the spec: system RAM (source file missing from src/). -/
structure RAM where
  data : Nat → Nat

namespace RAM

def START : Nat := 0x0000
def END : Nat := 0x7FFF

def read (address : Nat) (r : RAM) : Nat := r.data address

def write (address d : Nat) (r : RAM) : RAM :=
  { data := updFn r.data address (d &&& 0xFF) }

def init : RAM := ⟨fun _ => 0⟩

end RAM

/-- Modelled from the spec: read-only ROM (source file missing from src/). -/
structure ROM where
  data : Nat → Nat

namespace ROM

def START : Nat := 0x8000
def CODE : Nat := 0xA000
def END : Nat := 0xFFFF

def read (address : Nat) (r : ROM) : Nat := r.data address

def init : ROM := ⟨fun _ => 0⟩

end ROM

/-- Modelled from the spec: read-only cartridge (source file missing from src/). -/
structure Cart where
  data : Nat → Nat

namespace Cart

def START : Nat := 0x8000
def CODE : Nat := 0xC000
def END : Nat := 0xFFFF

def read (address : Nat) (r : Cart) : Nat := r.data address

end Cart

/-- Modelled from the spec: 65C02 CPU register state (source file missing
from src/); the machine bus dispatch never touches it. -/
structure CPUState where
  pc : Nat
  a : Nat
  x : Nat
  y : Nat
  sp : Nat
  statusFlags : Nat
  totalCycles : Nat
  remainingCycles : Nat

def CPUState.init : CPUState :=
  { pc := 0, a := 0, x := 0, y := 0, sp := 0xFD, statusFlags := 0x20,
    totalCycles := 0, remainingCycles := 0 }

/-! ## Machine bus (src/components/Machine.ts)

Address decode for `read`/`write`. Only the bus-visible state is carried;
host pacing fields (frame timers, render callbacks) are out of scope.
The attachment state type `α` parameterizes the VIA card. -/

structure Machine (α : Type) where
  cpu : CPUState
  ram : RAM
  rom : ROM
  cart : Option Cart
  io1 : RAMCard
  io2 : RAMCard
  io3 : RTCCard
  io4 : StorageCard
  io5 : SerialCard
  io6 : GPIOCard α
  io7 : SoundCard
  io8 : VideoCard

namespace Machine

variable {α : Type}

/-- Bus read: the `|| 0` in the source is the identity on the byte values
the cards return. Cards whose reads have side effects yield a new machine. -/
def read (ops : GPIOAttachmentOps α) (address : Nat) (m : Machine α) : Nat × Machine α :=
  if h : m.cart.isSome ∧ Cart.CODE ≤ address ∧ address ≤ Cart.END then
    ((m.cart.get h.1).read (address - Cart.START), m)
  else if ROM.CODE ≤ address ∧ address ≤ ROM.END then
    (m.rom.read (address - ROM.START), m)
  else if RAM.START ≤ address ∧ address ≤ RAM.END then
    (m.ram.read address, m)
  else if 0x8000 ≤ address ∧ address ≤ 0x83FF then
    (m.io1.read (address - 0x8000), m)
  else if 0x8400 ≤ address ∧ address ≤ 0x87FF then
    (m.io2.read (address - 0x8400), m)
  else if 0x8800 ≤ address ∧ address ≤ 0x8BFF then
    let (v, c) := m.io3.read (address - 0x8800)
    (v, { m with io3 := c })
  else if 0x8C00 ≤ address ∧ address ≤ 0x8FFF then
    let (v, c) := m.io4.read (address - 0x8C00)
    (v, { m with io4 := c })
  else if 0x9000 ≤ address ∧ address ≤ 0x93FF then
    let (v, c) := m.io5.read (address - 0x9000)
    (v, { m with io5 := c })
  else if 0x9400 ≤ address ∧ address ≤ 0x97FF then
    let (v, c) := GPIOCard.read ops (address - 0x9400) m.io6
    (v, { m with io6 := c })
  else if 0x9800 ≤ address ∧ address ≤ 0x9BFF then
    (m.io7.read (address - 0x9800), m)
  else if 0x9C00 ≤ address ∧ address ≤ 0x9FFF then
    let (v, c) := m.io8.read (address - 0x9C00)
    (v, { m with io8 := c })
  else
    (0, m)

/-- Bus write: dispatch to RAM or a card window; everything else —
including the whole ROM region — falls through to the no-op default. -/
def write (ops : GPIOAttachmentOps α) (address d : Nat) (m : Machine α) : Machine α :=
  if RAM.START ≤ address ∧ address ≤ RAM.END then
    { m with ram := m.ram.write address d }
  else if 0x8000 ≤ address ∧ address ≤ 0x83FF then
    { m with io1 := m.io1.write (address - 0x8000) d }
  else if 0x8400 ≤ address ∧ address ≤ 0x87FF then
    { m with io2 := m.io2.write (address - 0x8400) d }
  else if 0x8800 ≤ address ∧ address ≤ 0x8BFF then
    { m with io3 := m.io3.write (address - 0x8800) d }
  else if 0x8C00 ≤ address ∧ address ≤ 0x8FFF then
    { m with io4 := m.io4.write (address - 0x8C00) d }
  else if 0x9000 ≤ address ∧ address ≤ 0x93FF then
    { m with io5 := m.io5.write (address - 0x9000) d }
  else if 0x9400 ≤ address ∧ address ≤ 0x97FF then
    { m with io6 := GPIOCard.write ops (address - 0x9400) d m.io6 }
  else if 0x9800 ≤ address ∧ address ≤ 0x9BFF then
    { m with io7 := m.io7.write (address - 0x9800) d }
  else if 0x9C00 ≤ address ∧ address ≤ 0x9FFF then
    { m with io8 := m.io8.write (address - 0x9C00) d }
  else
    m

/-- A concrete machine in its construction state (no cartridge). -/
def init : Machine Unit :=
  { cpu := CPUState.init, ram := RAM.init, rom := ROM.init, cart := none,
    io1 := RAMCard.init, io2 := RAMCard.init, io3 := RTCCard.init,
    io4 := StorageCard.init, io5 := SerialCard.init, io6 := GPIOCard.init,
    io7 := SoundCard.init, io8 := VideoCard.init }

end Machine

/-! ## Claim setup definitions -/

/-- The E6 VIA timer setup: IER := 0xC0, T1 low := 0x01, T1 high := 0x00
starting from a freshly constructed VIA. -/
def gpioTimerSetup {α : Type} (ops : GPIOAttachmentOps α) : GPIOCard α :=
  GPIOCard.write ops 0x05 0x00
    (GPIOCard.write ops 0x04 0x01
      (GPIOCard.write ops 0x0E 0xC0 GPIOCard.init))

/-- First tick after the E6 setup. -/
def gpioTimerTick1 {α : Type} (ops : GPIOAttachmentOps α) (f : Nat) : GPIOCard α × Bool :=
  GPIOCard.tick ops f (gpioTimerSetup ops)

/-- Second tick after the E6 setup. -/
def gpioTimerTick2 {α : Type} (ops : GPIOAttachmentOps α) (f : Nat) : GPIOCard α × Bool :=
  GPIOCard.tick ops f (gpioTimerTick1 ops f).1

/-- Number of `raiseIRQ` invocations across the two E6 ticks. -/
def gpioTimerIrqCount {α : Type} (ops : GPIOAttachmentOps α) (f : Nat) : Nat :=
  (if (gpioTimerTick1 ops f).2 then 1 else 0) +
  (if (gpioTimerTick2 ops f).2 then 1 else 0)

/-- Write a list of bytes through the storage data port. -/
def StorageCard.writeSeq (l : List Nat) (c : StorageCard) : StorageCard :=
  l.foldl (fun c v => StorageCard.write 0x00 v c) c

/-- Perform `n` storage data-port reads, collecting the returned bytes. -/
def StorageCard.readSeq : Nat → StorageCard → List Nat × StorageCard
  | 0, c => ([], c)
  | n + 1, c =>
    let r := StorageCard.read 0x00 c
    let rest := StorageCard.readSeq n r.2
    (r.1 :: rest.1, rest.2)

/-- Program the sector-count (1) and LBA registers for sector `s`, then
issue command `cmd`. -/
def StorageCard.issue (cmd s : Nat) (c : StorageCard) : StorageCard :=
  StorageCard.write 0x07 cmd
    (StorageCard.write 0x06 ((s >>> 24) &&& 0xFF)
      (StorageCard.write 0x05 ((s >>> 16) &&& 0xFF)
        (StorageCard.write 0x04 ((s >>> 8) &&& 0xFF)
          (StorageCard.write 0x03 (s &&& 0xFF)
            (StorageCard.write 0x02 0x01 c)))))

/-- Write sector `s`: issue command 0x30 and push the 512 payload bytes. -/
def StorageCard.cfWriteSector (s : Nat) (p : Nat → Nat) (c : StorageCard) : StorageCard :=
  StorageCard.writeSeq ((List.range 512).map p) (StorageCard.issue 0x30 s c)

/-- Read sector `s`: issue command 0x20 and perform 512 data-port reads. -/
def StorageCard.cfReadSector (s : Nat) (c : StorageCard) : List Nat :=
  (StorageCard.readSeq 512 (StorageCard.issue 0x20 s c)).1

/-- The full E5/CF round trip: write payload `p` to sector `s`, read it back. -/
def StorageCard.cfRoundTrip (s : Nat) (p : Nat → Nat) (c : StorageCard) : List Nat :=
  StorageCard.cfReadSector s (StorageCard.cfWriteSector s p c)

/-- Per-voice invariant of the SID core: envelope level is a byte, the
noise LFSR is a nonzero 23-bit value, the accumulator is a 24-bit value. -/
def SIDVoice.OK (v : SIDVoice) : Prop :=
  v.envelopeLevel ≤ 255 ∧ v.noiseShift ≠ 0 ∧ v.noiseShift < 0x800000 ∧
    v.accumulator < 0x1000000

/-! # Theorems

General-purpose lemmas first, then the per-claim developments. -/

theorem updFn_same (f : Nat → Nat) (i v : Nat) : updFn f i v i = v := by
  simp [updFn]

theorem updFn_other (f : Nat → Nat) (i v j : Nat) (h : j ≠ i) : updFn f i v j = f j := by
  simp [updFn, h]

theorem land255_eq (x : Nat) : x &&& 255 = x % 256 := by
  have := Nat.and_pow_two_sub_one_eq_mod x 8
  norm_num at this
  omega

theorem land_mask14 (x : Nat) : x &&& 16383 = x % 16384 := by
  have := Nat.and_pow_two_sub_one_eq_mod x 14
  norm_num at this
  omega

theorem land_mask23 (x : Nat) : x &&& 8388607 = x % 8388608 := by
  have := Nat.and_pow_two_sub_one_eq_mod x 23
  norm_num at this
  omega

theorem land_mask24 (x : Nat) : x &&& 16777215 = x % 16777216 := by
  have := Nat.and_pow_two_sub_one_eq_mod x 24
  norm_num at this
  omega

theorem shiftr8_eq (x : Nat) : x >>> 8 = x / 256 := by
  have := Nat.shiftRight_eq_div_pow x 8
  norm_num at this
  omega

theorem shiftr16_eq (x : Nat) : x >>> 16 = x / 65536 := by
  have := Nat.shiftRight_eq_div_pow x 16
  norm_num at this
  omega

theorem shiftr24_eq (x : Nat) : x >>> 24 = x / 16777216 := by
  have := Nat.shiftRight_eq_div_pow x 24
  norm_num at this
  omega

/-- Bitwise or distributes over and with a mask. -/
theorem lor_land_distrib (a b m : Nat) : (a ||| b) &&& m = (a &&& m) ||| (b &&& m) := by
  apply Nat.eq_of_testBit_eq
  intro i
  simp [Nat.testBit_lor, Nat.testBit_land, Bool.and_or_distrib_right]

/-- Oring a mask in guarantees the mask bits: `(x ||| m) &&& m = m`. -/
theorem lor_land_self (x m : Nat) : (x ||| m) &&& m = m := by
  apply Nat.eq_of_testBit_eq
  intro i
  rw [Nat.testBit_land, Nat.testBit_lor]
  cases x.testBit i <;> cases m.testBit i <;> rfl

/-- A shifted value ored with a small value is their sum. -/
theorem lorDisjointAdd (a : Nat) : ∀ (k b : Nat), b < 2 ^ k → (a <<< k) ||| b = a * 2 ^ k + b := by
  intro k
  induction k generalizing a with
  | zero =>
    intro b hb
    interval_cases b
    simp [Nat.shiftLeft_eq]
  | succ k ih =>
    intro b hb
    have h2 : 2 ^ (k + 1) = 2 * 2 ^ k := by ring
    have hb2 : b / 2 < 2 ^ k := by omega
    have hsh' : a <<< (k + 1) = Nat.bit false (a <<< k) := by
      simp [Nat.bit, Nat.shiftLeft_eq, Nat.pow_succ]
      ring
    rcases Nat.mod_two_eq_zero_or_one b with hpar | hpar
    · have hb' : b = Nat.bit false (b / 2) := by simp [Nat.bit]; omega
      rw [hsh', hb', Nat.lor_bit, ih a (b / 2) hb2]
      simp only [Nat.bit, Bool.cond_false, Bool.cond_true, Bool.or_self, h2]
      ring
    · have hb' : b = Nat.bit true (b / 2) := by simp [Nat.bit]; omega
      rw [hsh', hb', Nat.lor_bit, ih a (b / 2) hb2]
      simp only [Nat.bit, Bool.cond_false, Bool.cond_true, Bool.or_self, Bool.false_or, Bool.or_false, h2]
      ring

/-- Disjoint or is addition: a multiple of `2^k` ored with a value below
`2^k`. -/
theorem lor_eq_add_of_dvd (x b k : Nat) (hx : 2 ^ k ∣ x) (hb : b < 2 ^ k) :
    x ||| b = x + b := by
  obtain ⟨c, rfl⟩ := hx
  have : 2 ^ k * c = c <<< k := by rw [Nat.shiftLeft_eq]; ring
  rw [this, lorDisjointAdd c k b hb, Nat.shiftLeft_eq]

/-! ## Claim C5 — writes to the ROM region leave the machine unchanged -/

/-- C5: for every bus address in the ROM region `0xA000..0xFFFF` and every
data byte, `Machine.write` is the identity on the machine state, hence any
subsequent bus read — of a ROM address or any other — returns exactly what
it returned before the write. -/
theorem claim_C5 {α : Type} (ops : GPIOAttachmentOps α) (m : Machine α) (a d : Nat)
    (h1 : 0xA000 ≤ a) (h2 : a ≤ 0xFFFF) :
    Machine.write ops a d m = m ∧
      ∀ x, (Machine.read ops x (Machine.write ops a d m)).1 = (Machine.read ops x m).1 := by
  have hw : Machine.write ops a d m = m := by
    unfold Machine.write
    rw [if_neg (by simp only [RAM.START, RAM.END]; omega)]
    rw [if_neg (by omega), if_neg (by omega), if_neg (by omega), if_neg (by omega)]
    rw [if_neg (by omega), if_neg (by omega), if_neg (by omega), if_neg (by omega)]
  exact ⟨hw, fun x => by rw [hw]⟩

/-- Witness for C5 at a concrete machine, address and byte. -/
theorem claim_C5_witness :
    (0xA000 ≤ 0xA000 ∧ 0xA000 ≤ 0xFFFF) ∧
      (Machine.write unitAttachmentOps 0xA000 0x42 Machine.init = Machine.init ∧
        ∀ x, (Machine.read unitAttachmentOps x
            (Machine.write unitAttachmentOps 0xA000 0x42 Machine.init)).1 =
          (Machine.read unitAttachmentOps x Machine.init).1) :=
  ⟨⟨by decide, by decide⟩,
    claim_C5 unitAttachmentOps Machine.init 0xA000 0x42 (by decide) (by decide)⟩

/-! ## Claim C6 — banked RAM round trip and bank isolation -/

/-- C6: writing `v` at offset `o` of bank `b` and reading it back (bank
still selected) returns `v`; writing at the same offset of a different bank
`bp` does not disturb it — re-selecting `b` still reads `v`. -/
theorem claim_C6 (c : RAMCard) (b bp o v vp : Nat)
    (hb : b < 256) (hbp : bp < 256) (hne : b ≠ bp) (ho : o ≤ 0x3FE) (hv : v < 256) :
    RAMCard.read o (RAMCard.write o v (RAMCard.write 0x3FF b c)) = v ∧
      RAMCard.read o
        (RAMCard.write 0x3FF b
          (RAMCard.write o vp
            (RAMCard.write 0x3FF bp
              (RAMCard.write o v (RAMCard.write 0x3FF b c))))) = v := by
  have hov : ¬(o = 1023) := by omega
  have hbmask : b &&& 255 = b := by rw [land255_eq]; omega
  have hbpmask : bp &&& 255 = bp := by rw [land255_eq]; omega
  have hvmask : v &&& 255 = v := by rw [land255_eq]; omega
  have hneq : ¬(b * 1024 + o = bp * 1024 + o) := by omega
  constructor
  · simp [RAMCard.read, RAMCard.write, RAMCard.BANK_CONTROL_REGISTER, RAMCard.BANK_SIZE,
      hov, hbmask, hvmask, updFn]
  · simp [RAMCard.read, RAMCard.write, RAMCard.BANK_CONTROL_REGISTER, RAMCard.BANK_SIZE,
      hov, hbmask, hbpmask, hvmask, updFn, hneq]

/-- Witness for C6 at concrete banks, offset and values. -/
theorem claim_C6_witness :
    ((1 : Nat) < 256 ∧ (2 : Nat) < 256 ∧ (1 : Nat) ≠ 2 ∧ (0 : Nat) ≤ 0x3FE ∧ (5 : Nat) < 256) ∧
      (RAMCard.read 0 (RAMCard.write 0 5 (RAMCard.write 0x3FF 1 RAMCard.init)) = 5 ∧
        RAMCard.read 0
          (RAMCard.write 0x3FF 1
            (RAMCard.write 0 7
              (RAMCard.write 0x3FF 2
                (RAMCard.write 0 5 (RAMCard.write 0x3FF 1 RAMCard.init))))) = 5) :=
  ⟨⟨by decide, by decide, by decide, by decide, by decide⟩,
    claim_C6 RAMCard.init 1 2 0 5 7 (by decide) (by decide) (by decide) (by decide) (by decide)⟩

/-! ## Claim C7 — the VDP VRAM pointer wraps at 0x4000 -/

/-- C7: every data-port access uses the pointer reduced into the 16KB VRAM
(`mod 0x4000`, always `< 0x4000`) and then increments it, so consecutive
effective addresses advance modulo `0x4000` — incrementing past `0x3FFF`
continues at VRAM address 0. Writes store at the effective address and
reads return the prior read-ahead byte while fetching from it. -/
theorem claim_C7 (c : VideoCard) (d : Nat) :
    (c.currentAddress &&& VideoCard.VRAM_MASK) = c.currentAddress % 0x4000 ∧
      c.currentAddress % 0x4000 < 0x4000 ∧
      (VideoCard.writeData d c).vram (c.currentAddress % 0x4000) = d &&& 0xFF ∧
      (VideoCard.writeData d c).currentAddress % 0x4000 =
        (c.currentAddress % 0x4000 + 1) % 0x4000 ∧
      (VideoCard.readData c).1 = c.readAheadBuffer ∧
      (VideoCard.readData c).2.readAheadBuffer = c.vram (c.currentAddress % 0x4000) ∧
      (VideoCard.readData c).2.currentAddress % 0x4000 =
        (c.currentAddress % 0x4000 + 1) % 0x4000 := by
  have hmask : ∀ x : Nat, x &&& VideoCard.VRAM_MASK = x % 0x4000 := by
    intro x
    have : VideoCard.VRAM_MASK = 16383 := by decide
    rw [this, land_mask14]
  refine ⟨hmask _, by omega, ?_, ?_, rfl, ?_, ?_⟩
  · simp only [VideoCard.writeData, hmask]
    exact updFn_same ..
  · simp only [VideoCard.writeData]
    omega
  · simp only [VideoCard.readData, hmask]
  · simp only [VideoCard.readData]
    omega

/-! ## Claim C9 — ACIA programmed reset (corrected) -/

/-- Status value computed by a status read after a programmed reset. -/
theorem readStatus_after_programmedReset (c : SerialCard) :
    let c1 := SerialCard.programmedReset c
    c1.statusRegister = 0x10 ∧ c1.parityError = false ∧ c1.framingError = false ∧
      c1.overrun = false ∧ c1.irqFlag = false ∧
      c1.transmitBuffer = c.transmitBuffer ∧ c1.receiveBuffer = c.receiveBuffer ∧
      (SerialCard.readStatus c1).2.transmitBuffer = c.transmitBuffer ∧
      (SerialCard.readStatus c1).2.receiveBuffer = c.receiveBuffer ∧
      (SerialCard.readStatus c1).1 &&& 0x01 = 0 ∧
      (SerialCard.readStatus c1).1 &&& 0x02 = 0 ∧
      (SerialCard.readStatus c1).1 &&& 0x04 = 0 ∧
      (SerialCard.readStatus c1).1 &&& 0x80 = 0 ∧
      (SerialCard.readStatus c1).1 &&& 0x40 = 0x40 ∧
      ((SerialCard.readStatus c1).1 &&& 0x10 = 0x10 ↔ c.transmitBuffer = []) := by
  cases hrx : c.receiveBuffer <;> cases htx : c.transmitBuffer <;>
    simp [SerialCard.readStatus, SerialCard.programmedReset, bnot8, hrx, htx] <;> decide

/-- C9 (amended): a programmed reset sets the stored status byte to
TDRE-only and clears the parity, framing, overrun and IRQ flags while
leaving both FIFOs untouched; a subsequent status read reports parity,
framing, overrun and IRQ clear and DSR set, but recomputes TDRE from the
live TX FIFO — TDRE reads set exactly when the TX FIFO is empty, so a
pending TX byte keeps TDRE clear. -/
theorem claim_C9 (c : SerialCard) :
    let c1 := SerialCard.programmedReset c
    c1.statusRegister = 0x10 ∧ c1.parityError = false ∧ c1.framingError = false ∧
      c1.overrun = false ∧ c1.irqFlag = false ∧
      c1.transmitBuffer = c.transmitBuffer ∧ c1.receiveBuffer = c.receiveBuffer ∧
      (SerialCard.readStatus c1).2.transmitBuffer = c.transmitBuffer ∧
      (SerialCard.readStatus c1).2.receiveBuffer = c.receiveBuffer ∧
      (SerialCard.readStatus c1).1 &&& 0x01 = 0 ∧
      (SerialCard.readStatus c1).1 &&& 0x02 = 0 ∧
      (SerialCard.readStatus c1).1 &&& 0x04 = 0 ∧
      (SerialCard.readStatus c1).1 &&& 0x80 = 0 ∧
      (SerialCard.readStatus c1).1 &&& 0x40 = 0x40 ∧
      ((SerialCard.readStatus c1).1 &&& 0x10 = 0x10 ↔ c.transmitBuffer = []) :=
  readStatus_after_programmedReset c

/-- C9 counterexample to the claim as stated: with one byte pending in the
TX FIFO, writing the programmed-reset register and then reading the status
register reports TDRE clear (status `0x40`), not set. -/
theorem claim_C9_counterexample :
    (SerialCard.read 0x01
        (SerialCard.write 0x01 0x00
          (SerialCard.write 0x00 0x42 SerialCard.init))).1 = 0x40 ∧
      ¬((0x40 : Nat) &&& 0x10 = 0x10) ∧
      (SerialCard.write 0x00 0x42 SerialCard.init).transmitBuffer ≠ [] := by
  refine ⟨by decide, by decide, by decide⟩

/-! ## Claim C1 — VIA timer IRQ scenario (corrected) -/

/-- Enabling the T1 interrupt: an IER write with bit 7 set adds the listed
enables. -/
theorem gpioWrite0E {α : Type} (ops : GPIOAttachmentOps α) :
    GPIOCard.write ops 0x0E 0xC0 GPIOCard.init =
      { GPIOCard.init with regIER := 0x40 } := by
  simp [GPIOCard.write, GPIOCard.clearIRQFlag, GPIOCard.setIRQFlag, GPIOCard.updateIRQ,
    GPIOCard.init, bnot8]
  decide

/-- A T1 low write lands in the low latch byte. -/
theorem gpioWrite04 {α : Type} (ops : GPIOAttachmentOps α) :
    GPIOCard.write ops 0x04 0x01 { GPIOCard.init with regIER := 0x40 } =
      { GPIOCard.init with regIER := 0x40, regT1L := 0xFF01 } := by
  simp [GPIOCard.write, GPIOCard.clearIRQFlag, GPIOCard.setIRQFlag, GPIOCard.updateIRQ,
    GPIOCard.init, bnot8]
  decide

/-- A T1 high-counter write loads the latch into the counter and starts T1. -/
theorem gpioWrite05 {α : Type} (ops : GPIOAttachmentOps α) :
    GPIOCard.write ops 0x05 0x00 { GPIOCard.init with regIER := 0x40, regT1L := 0xFF01 } =
      { GPIOCard.init with regIER := 0x40, regT1L := 0x0001, regT1C := 0x0001,
                           T1_running := true } := by
  simp [GPIOCard.write, GPIOCard.clearIRQFlag, GPIOCard.setIRQFlag, GPIOCard.updateIRQ,
    GPIOCard.init, bnot8, GPIOCard.IRQ_T1]
  decide

/-- State after the E6 register writes: IER bit 6 enabled, T1 latch and
counter loaded with 0x0001, timer running. -/
theorem gpioTimerSetup_eq {α : Type} (ops : GPIOAttachmentOps α) :
    gpioTimerSetup ops =
      { GPIOCard.init with regIER := 0x40, regT1L := 0x0001, regT1C := 0x0001,
                           T1_running := true } := by
  rw [gpioTimerSetup, gpioWrite0E, gpioWrite04, gpioWrite05]

/-- First tick after the setup: the counter reaches 0, the T1 flag (bit 6)
and master flag are set, the timer halts, and `raiseIRQ` is invoked. -/
theorem gpioTimerTick1_eq {α : Type} (ops : GPIOAttachmentOps α) (f : Nat) :
    gpioTimerTick1 ops f =
      ({ GPIOCard.init with regIER := 0x40, regT1L := 0x0001, regT1C := 0,
                            T1_running := false, regIFR := 0xC0, tickCounter := 1 }, true) := by
  rw [gpioTimerTick1, gpioTimerSetup_eq]
  simp [GPIOCard.tick, GPIOCard.clearIRQFlag, GPIOCard.setIRQFlag, GPIOCard.updateIRQ,
    GPIOCard.init, bnot8, GPIOCard.IRQ_T1, GPIOCard.IRQ_IRQ]

/-- Second tick: the timer is halted but the still-pending enabled T1 flag
makes the tick handler invoke `raiseIRQ` again. -/
theorem gpioTimerTick2_eq {α : Type} (ops : GPIOAttachmentOps α) (f : Nat) :
    gpioTimerTick2 ops f =
      ({ GPIOCard.init with regIER := 0x40, regT1L := 0x0001, regT1C := 0,
                            T1_running := false, regIFR := 0xC0, tickCounter := 2 }, true) := by
  rw [gpioTimerTick2, gpioTimerTick1_eq]
  simp [GPIOCard.tick, GPIOCard.clearIRQFlag, GPIOCard.setIRQFlag, GPIOCard.updateIRQ,
    GPIOCard.init, bnot8, GPIOCard.IRQ_T1, GPIOCard.IRQ_IRQ]

/-- C1 (amended): after enabling the T1 interrupt (IER `0xC0`), writing T1
low `0x01` and T1 high `0x00`, two ticks leave IFR bit 6 set, and the host
`raiseIRQ` callback is invoked on *each* tick — exactly twice in total, not
once — because the tick handler re-raises the IRQ line whenever an enabled
interrupt flag is still pending. -/
theorem claim_C1 {α : Type} (ops : GPIOAttachmentOps α) (f : Nat) :
    (gpioTimerTick2 ops f).1.regIFR &&& 0x40 = 0x40 ∧
      (gpioTimerTick1 ops f).2 = true ∧ (gpioTimerTick2 ops f).2 = true ∧
      gpioTimerIrqCount ops f = 2 := by
  rw [gpioTimerIrqCount, gpioTimerTick1_eq, gpioTimerTick2_eq]
  refine ⟨?_, rfl, rfl, rfl⟩
  show (0xC0 : Nat) &&& 0x40 = 0x40
  decide

/-- C1 counterexample to the claim as stated: in the E6 setup the IRQ
callback fires twice across the two ticks, not exactly once. -/
theorem claim_C1_counterexample :
    gpioTimerIrqCount unitAttachmentOps 2000000 = 2 ∧
      gpioTimerIrqCount unitAttachmentOps 2000000 ≠ 1 := by
  rw [gpioTimerIrqCount, gpioTimerTick1_eq, gpioTimerTick2_eq]
  exact ⟨rfl, by decide⟩

/-! ## Claim C10 — GPIOCard.reset silently drops all attachments -/

/-- `reset` zeroes the attachment counts and nulls the slots *before* its
attachment-reset loops run, so the loops iterate zero times: the result is
exactly the construction state and the attachment-reset call count is 0. -/
theorem gpio_reset_eq {α : Type} (ops : GPIOAttachmentOps α) (cold : Bool) (c : GPIOCard α) :
    GPIOCard.reset ops cold c = (GPIOCard.init, 0) := by
  simp [GPIOCard.reset, GPIOCard.init]

/-- A tick of the freshly reset VIA: timers halted, no attachments to tick
or poll, IFR stays 0 and no IRQ is raised. -/
theorem gpio_tick_init {α : Type} (ops : GPIOAttachmentOps α) (f : Nat) :
    GPIOCard.tick ops f GPIOCard.init = ({ GPIOCard.init with tickCounter := 1 }, false) := by
  simp [GPIOCard.tick, GPIOCard.clearIRQFlag, GPIOCard.setIRQFlag, GPIOCard.updateIRQ,
    GPIOCard.init, bnot8]

/-- With no attachments, the port external input is the idle `0xFF`. -/
theorem gpio_extA_init {α : Type} (ops : GPIOAttachmentOps α) :
    GPIOCard.externalInputA ops GPIOCard.init = 0xFF := by
  simp [GPIOCard.externalInputA, GPIOCard.init]

/-- With no attachments, the port external input is the idle `0xFF`. -/
theorem gpio_extB_init {α : Type} (ops : GPIOAttachmentOps α) :
    GPIOCard.externalInputB ops GPIOCard.init = 0xFF := by
  simp [GPIOCard.externalInputB, GPIOCard.init]

/-- C10: after `GPIOCard.reset` (cold or warm), both attachment lists are
empty — the slots are nulled and the counts zeroed before the
attachment-reset loops run, so no attachment `reset()` is ever invoked
(the returned call count is 0). Subsequent port reads see no attachment
input (the external input is the idle `0xFF`), and a subsequent tick polls
no attachment interrupts and raises no IRQ (IFR stays 0). -/
theorem claim_C10 {α : Type} (ops : GPIOAttachmentOps α) (cold : Bool) (c : GPIOCard α)
    (f : Nat) :
    (GPIOCard.reset ops cold c).2 = 0 ∧
      (GPIOCard.reset ops cold c).1.portA_attachmentCount = 0 ∧
      (GPIOCard.reset ops cold c).1.portB_attachmentCount = 0 ∧
      (∀ i, (GPIOCard.reset ops cold c).1.portA_attachments i = none) ∧
      (∀ i, (GPIOCard.reset ops cold c).1.portB_attachments i = none) ∧
      GPIOCard.externalInputA ops (GPIOCard.reset ops cold c).1 = 0xFF ∧
      GPIOCard.externalInputB ops (GPIOCard.reset ops cold c).1 = 0xFF ∧
      (GPIOCard.tick ops f (GPIOCard.reset ops cold c).1).1.regIFR = 0 ∧
      (GPIOCard.tick ops f (GPIOCard.reset ops cold c).1).2 = false := by
  rw [gpio_reset_eq]
  rw [gpio_tick_init]
  exact ⟨rfl, rfl, rfl, fun i => rfl, fun i => rfl,
    gpio_extA_init ops, gpio_extB_init ops, rfl, rfl⟩

/-! ## Claim C4 — storage command abort and invalid-LBA errors -/

/-- The byte-restricted complement is disjoint from its mask. -/
theorem bnot8_land_self (m : Nat) : bnot8 m &&& m = 0 := by
  apply Nat.eq_of_testBit_eq
  intro i
  simp only [bnot8, Nat.testBit_land, Nat.testBit_xor, Nat.zero_testBit]
  have h255 : (255 : Nat) = 2 ^ 8 - 1 := by decide
  rw [h255, Nat.testBit_two_pow_sub_one]
  by_cases hi : i < 8
  · cases h : m.testBit i <;> simp [hi, h]
  · simp [hi]

/-- Clearing bits through `bnot8` makes the mask test zero. -/
theorem land_bnot8_mask (x m : Nat) : (x &&& bnot8 m) &&& m = 0 := by
  rw [Nat.land_assoc, bnot8_land_self, Nat.and_zero]

/-- Bus-reachable storage states keep DRQ in sync with the busy flags:
whenever status bit 3 (DRQ) is set, a transfer or identify is in flight. -/
theorem storage_drq_busy {c : StorageCard} (h : StorageCard.Reach c) :
    c.status &&& 0x08 ≠ 0 → (c.isTransferring = true ∨ c.isIdentifying = true) := by
  induction h with
  | init =>
    intro hdrq
    exact absurd (by decide : StorageCard.init.status &&& 0x08 = 0) hdrq
  | wr a d hd hr ih =>
    unfold StorageCard.write
    split
    · -- data register: writeBuffer
      unfold StorageCard.writeBuffer
      dsimp only
      split
      · exact fun hdrq => ih hdrq
      · split
        · exact fun hdrq => absurd (land_bnot8_mask ..) hdrq
        · exact fun hdrq => ih hdrq
    · exact fun hdrq => ih hdrq
    · exact fun hdrq => ih hdrq
    · exact fun hdrq => ih hdrq
    · exact fun hdrq => ih hdrq
    · exact fun hdrq => ih hdrq
    · exact fun hdrq => ih hdrq
    · -- command register: executeCommand
      unfold StorageCard.executeCommand
      dsimp only
      split
      · exact fun hdrq => absurd (by simp only [StorageCard.STATUS_ERR, StorageCard.STATUS_DRQ]; rw [lor_land_distrib, land_bnot8_mask]; decide) hdrq
      · split
        · split
          · exact fun hdrq => absurd (by simp only [StorageCard.STATUS_ERR, StorageCard.STATUS_DRQ]; rw [lor_land_distrib, land_bnot8_mask]; decide) hdrq
          · exact fun hdrq => absurd (land_bnot8_mask ..) hdrq
        · exact fun _ => Or.inr rfl
        · split
          · exact fun hdrq => absurd (by simp only [StorageCard.STATUS_ERR, StorageCard.STATUS_DRQ]; rw [lor_land_distrib, land_bnot8_mask]; decide) hdrq
          · exact fun _ => Or.inl rfl
        · split
          · exact fun hdrq => absurd (by simp only [StorageCard.STATUS_ERR, StorageCard.STATUS_DRQ]; rw [lor_land_distrib, land_bnot8_mask]; decide) hdrq
          · exact fun _ => Or.inl rfl
        · exact fun hdrq => absurd (land_bnot8_mask ..) hdrq
        · split
          · exact fun hdrq => absurd (by simp only [StorageCard.STATUS_ERR, StorageCard.STATUS_DRQ]; rw [lor_land_distrib, land_bnot8_mask]; decide) hdrq
          · exact fun _ => Or.inl rfl
        · split
          · exact fun hdrq => absurd (by simp only [StorageCard.STATUS_ERR, StorageCard.STATUS_DRQ]; rw [lor_land_distrib, land_bnot8_mask]; decide) hdrq
          · exact fun _ => Or.inl rfl
        · exact fun hdrq => absurd (by simp only [StorageCard.STATUS_ERR, StorageCard.STATUS_DRQ]; rw [lor_land_distrib, land_bnot8_mask]; decide) hdrq
    · exact fun hdrq => ih hdrq
  | rd a hr ih =>
    unfold StorageCard.read
    split
    · -- data register: readBuffer
      unfold StorageCard.readBuffer
      dsimp only
      split
      · split
        · exact fun _ => Or.inr (by assumption)
        · exact fun hdrq => absurd (land_bnot8_mask ..) hdrq
      · split
        · split
          · exact fun _ => Or.inl (by assumption)
          · split
            · exact fun _ => Or.inl (by assumption)
            · exact fun hdrq => absurd (land_bnot8_mask ..) hdrq
        · exact fun hdrq => ih hdrq
    · exact fun hdrq => ih hdrq
    · exact fun hdrq => ih hdrq
    · exact fun hdrq => ih hdrq
    · exact fun hdrq => ih hdrq
    · exact fun hdrq => ih hdrq
    · exact fun hdrq => ih hdrq
    · exact fun hdrq => ih hdrq
    · exact fun hdrq => ih hdrq

/-- Writing the command register runs `executeCommand` with the stored
command byte. -/
theorem storage_write7 (d : Nat) (c : StorageCard) :
    StorageCard.write 0x07 d c = StorageCard.executeCommand { c with command := d } := by
  unfold StorageCard.write
  split <;> first | rfl | simp_all

/-- C4: (a) writing any command byte while the DRQ status bit is set (in
any bus-reachable state) aborts: the ERR status bit and the ABRT error bit
are set; (b) issuing a read, write, or erase command whose LBA is at least
262144 while idle sets the ERR status bit and the IDNF error bit. -/
theorem claim_C4 :
    (∀ (c : StorageCard), StorageCard.Reach c → c.status &&& 0x08 ≠ 0 → ∀ cmd,
        (StorageCard.write 0x07 cmd c).status &&& 0x01 ≠ 0 ∧
          (StorageCard.write 0x07 cmd c).error &&& 0x04 ≠ 0) ∧
      (∀ (c : StorageCard) (cmd : Nat), c.isTransferring = false → c.isIdentifying = false →
        (cmd = 0x20 ∨ cmd = 0x21 ∨ cmd = 0x30 ∨ cmd = 0x31 ∨ cmd = 0xC0) →
        262144 ≤ StorageCard.sectorIndex c →
        (StorageCard.write 0x07 cmd c).status &&& 0x01 ≠ 0 ∧
          (StorageCard.write 0x07 cmd c).error &&& 0x10 ≠ 0) := by
  constructor
  · intro c hre hdrq cmd
    have hbusy := storage_drq_busy hre hdrq
    rw [storage_write7]
    unfold StorageCard.executeCommand
    dsimp only
    rw [if_pos hbusy]
    constructor
    · simp only [StorageCard.STATUS_ERR, StorageCard.STATUS_DRQ]
      rw [lor_land_self]
      decide
    · simp only [StorageCard.ERR_ABRT]
      rw [lor_land_self]
      decide
  · intro c cmd ht hi hcmd hlba
    have herr1 : ∀ x : Nat, (x ||| StorageCard.STATUS_ERR) &&& 0x01 ≠ 0 := by
      intro x
      simp only [StorageCard.STATUS_ERR]
      rw [lor_land_self]
      decide
    have herr2 : ∀ x : Nat, (x ||| (StorageCard.ERR_ABRT ||| StorageCard.ERR_IDNF)) &&& 0x10 ≠ 0 := by
      intro x
      rw [show StorageCard.ERR_ABRT ||| StorageCard.ERR_IDNF = 20 from by decide]
      rw [lor_land_distrib]
      rw [show (20 : Nat) &&& 0x10 = 16 from by decide]
      intro h0
      have h2 := congrArg (fun t => t.testBit 4) h0
      simp [Nat.testBit_lor] at h2
      exact absurd h2.2 (by decide)
    rw [storage_write7]
    unfold StorageCard.executeCommand
    dsimp only
    rw [if_neg (by simp [ht, hi])]
    rcases hcmd with rfl | rfl | rfl | rfl | rfl <;>
      (split <;> try (exact absurd (by assumption) (by decide))) <;>
      (split
       · exact ⟨herr1 _, herr2 _⟩
       · exfalso
         have hvt2 : StorageCard.sectorIndex c < 262144 :=
           of_decide_eq_true (not_not.mp (by assumption))
         omega)

/-- Witness for C4: (a) at a reachable state with DRQ set (a write command
with a valid LBA was just issued) any further command aborts; (b) a read
command issued with LBA byte 2 set to 0x04 (sector index 262144) fails
with IDNF. -/
theorem claim_C4_witness :
    ((StorageCard.write 0x07 0x00
        (StorageCard.write 0x07 0x30
          (StorageCard.write 0x02 0x01 StorageCard.init))).status &&& 0x01 ≠ 0 ∧
      (StorageCard.write 0x07 0x00
        (StorageCard.write 0x07 0x30
          (StorageCard.write 0x02 0x01 StorageCard.init))).error &&& 0x04 ≠ 0) ∧
    ((StorageCard.write 0x07 0x20
        (StorageCard.write 0x05 0x04 StorageCard.init)).status &&& 0x01 ≠ 0 ∧
      (StorageCard.write 0x07 0x20
        (StorageCard.write 0x05 0x04 StorageCard.init)).error &&& 0x10 ≠ 0) :=
  ⟨claim_C4.1 _
      (StorageCard.Reach.wr 0x07 0x30 (by decide)
        (StorageCard.Reach.wr 0x02 0x01 (by decide) StorageCard.Reach.init))
      (by decide) 0x00,
    claim_C4.2 (StorageCard.write 0x05 0x04 StorageCard.init) 0x20
      (by decide) (by decide) (Or.inl rfl) (by decide)⟩

theorem OK_intro {v : SIDVoice} (h1 : v.envelopeLevel ≤ 255) (h2 : v.noiseShift ≠ 0)
    (h3 : v.noiseShift < 0x800000) (h4 : v.accumulator < 0x1000000) : SIDVoice.OK v :=
  ⟨h1, h2, h3, h4⟩

theorem setVoice_voices (j : Fin 3) (v : SIDVoice) (c : SoundCard) (i : Fin 3) :
    (SoundCard.setVoice j v c).voices i = if i = j then v else c.voices i := by
  simp [SoundCard.setVoice, Function.update_apply]

theorem updExp_envelopeLevel (v : SIDVoice) :
    (SoundCard.updateExponentialPeriod v).envelopeLevel = v.envelopeLevel := by
  unfold SoundCard.updateExponentialPeriod
  repeat first | rfl | split

theorem updExp_noiseShift (v : SIDVoice) :
    (SoundCard.updateExponentialPeriod v).noiseShift = v.noiseShift := by
  unfold SoundCard.updateExponentialPeriod
  repeat first | rfl | split

theorem updExp_accumulator (v : SIDVoice) :
    (SoundCard.updateExponentialPeriod v).accumulator = v.accumulator := by
  unfold SoundCard.updateExponentialPeriod
  repeat first | rfl | split

theorem sustain_getD_le (n : Nat) : SoundCard.SUSTAIN_LEVELS.getD n 0 ≤ 255 := by
  rcases Nat.lt_or_ge n 16 with h | h
  · interval_cases n <;> decide
  · rw [List.getD_eq_default]
    · decide
    · simpa [SoundCard.SUSTAIN_LEVELS] using h

theorem mask24_lt (x : Nat) : x &&& 16777215 < 16777216 := by
  rw [land_mask24]; omega

theorem mask23_lt (x : Nat) : x &&& 8388607 < 8388608 := by
  rw [land_mask23]; omega

/-- One step of the 23-bit Fibonacci LFSR (taps 17 and 22) never reaches
zero from a nonzero state: the only candidate, 2^22 shifting out to 2^23,
feeds back a 1 through the tap at bit 22. -/
theorem lfsr_step_ne_zero (ns : Nat) (h0 : ns ≠ 0) (hlt : ns < 8388608) :
    ((ns <<< 1) ||| (((ns >>> 17) ^^^ (ns >>> 22)) &&& 1)) &&& 8388607 ≠ 0 := by
  intro hz
  have hb1 : (((ns >>> 17) ^^^ (ns >>> 22)) &&& 1) ≤ 1 := Nat.and_le_right
  have hadd : (ns <<< 1) ||| (((ns >>> 17) ^^^ (ns >>> 22)) &&& 1)
      = ns * 2 + (((ns >>> 17) ^^^ (ns >>> 22)) &&& 1) := by
    have h2 := lorDisjointAdd ns 1 _ (Nat.lt_succ_of_le hb1)
    simpa using h2
  rw [hadd, land_mask23] at hz
  have hb0 : (((ns >>> 17) ^^^ (ns >>> 22)) &&& 1) = 0 := by omega
  have hns4 : ns = 4194304 := by omega
  subst hns4
  exact absurd hb0 (by decide)

theorem updateVoiceRegister_OK {c : SoundCard} (hOK : ∀ i, SIDVoice.OK (c.voices i))
    (j : Fin 3) (reg d : Nat) :
    ∀ i, SIDVoice.OK ((SoundCard.updateVoiceRegister j reg d c).voices i) := by
  intro i
  unfold SoundCard.updateVoiceRegister
  dsimp only
  split <;>
    first
    | exact hOK i
    | (rw [setVoice_voices]
       by_cases hij : i = j
       · rw [if_pos hij]
         repeat' split
         all_goals
           refine OK_intro ?_ ?_ ?_ ?_ <;> (try dsimp only) <;>
             (first
               | exact (hOK j).1
               | exact (hOK j).2.1
               | exact (hOK j).2.2.1
               | exact (hOK j).2.2.2
               | decide)
       · rw [if_neg hij]
         exact hOK i)

theorem updateGlobalRegister_voices (reg d : Nat) (c : SoundCard) :
    (SoundCard.updateGlobalRegister reg d c).voices = c.voices := by
  unfold SoundCard.updateGlobalRegister
  repeat first | rfl | split

theorem soundWrite_OK {c : SoundCard} (hOK : ∀ i, SIDVoice.OK (c.voices i)) (a d : Nat) :
    ∀ i, SIDVoice.OK ((SoundCard.write a d c).voices i) := by
  unfold SoundCard.write
  dsimp only
  split
  · exact hOK
  · split
    · refine updateVoiceRegister_OK ?_ _ _ _
      exact hOK
    · intro i
      rw [updateGlobalRegister_voices]
      exact hOK i

theorem clockOscillator_OK {c : SoundCard} (hOK : ∀ i, SIDVoice.OK (c.voices i)) (j : Fin 3) :
    ∀ i, SIDVoice.OK ((SoundCard.clockOscillator j c).voices i) := by
  intro i
  unfold SoundCard.clockOscillator
  dsimp only
  split
  · exact hOK i
  · rw [setVoice_voices]
    by_cases hij : i = j
    · rw [if_pos hij]
      repeat' split
      all_goals
        refine OK_intro ?_ ?_ ?_ ?_ <;> (try dsimp only) <;>
          (first
            | exact (hOK j).1
            | exact (hOK j).2.1
            | exact (hOK j).2.2.1
            | exact (hOK j).2.2.2
            | exact mask24_lt _
            | exact mask23_lt _
            | exact lfsr_step_ne_zero _ (hOK j).2.1 (hOK j).2.2.1
            | decide)
    · rw [if_neg hij, setVoice_voices, if_neg hij]
      exact hOK i

theorem clockEnvelope_OK {c : SoundCard} (hOK : ∀ i, SIDVoice.OK (c.voices i)) (j : Fin 3) :
    ∀ i, SIDVoice.OK ((SoundCard.clockEnvelope j c).voices i) := by
  intro i
  unfold SoundCard.clockEnvelope
  dsimp only
  rw [setVoice_voices]
  by_cases hij : i = j
  · rw [if_pos hij]
    have henv := (hOK j).1
    repeat' split
    all_goals
      refine OK_intro ?_ ?_ ?_ ?_ <;> (try dsimp only at *) <;>
        (first
          | exact (hOK j).1
          | exact (hOK j).2.1
          | exact (hOK j).2.2.1
          | exact (hOK j).2.2.2
          | exact sustain_getD_le _
          | decide
          | omega
          | (rw [updExp_envelopeLevel] <;> (try dsimp only) <;>
              first
                | decide
                | omega
                | exact sustain_getD_le _)
          | (rw [updExp_noiseShift] <;>
              first
                | exact (hOK j).2.1
                | exact (hOK j).2.2.1)
          | (rw [updExp_accumulator] <;> exact (hOK j).2.2.2))
  · rw [if_neg hij]
    exact hOK i

theorem clockOneCycle_OK {c : SoundCard} (hOK : ∀ i, SIDVoice.OK (c.voices i)) :
    ∀ i, SIDVoice.OK ((SoundCard.clockOneCycle c).voices i) := by
  unfold SoundCard.clockOneCycle
  simp only [List.foldl_cons, List.foldl_nil]
  exact clockEnvelope_OK (clockOscillator_OK (clockEnvelope_OK (clockOscillator_OK
    (clockEnvelope_OK (clockOscillator_OK hOK 0) 0) 1) 1) 2) 2

/-- The per-voice invariant holds in every reachable SoundCard state. -/
theorem soundcard_invariant {c : SoundCard} (h : SoundCard.Reach c) :
    ∀ i, SIDVoice.OK (c.voices i) := by
  induction h with
  | init =>
    intro i
    show SIDVoice.OK SIDVoice.init
    unfold SIDVoice.OK
    decide
  | wr a d hd hre ih => exact soundWrite_OK ih a d
  | ck hre ih => exact clockOneCycle_OK ih

/-- C8: in every SoundCard state reachable through register writes and SID
clock cycles, every voice keeps its envelope level in [0, 255], its 23-bit
noise LFSR nonzero, and its phase accumulator wrapped at 24 bits (the
accumulator equals its value modulo 2^24). -/
theorem claim_C8 (c : SoundCard) (h : SoundCard.Reach c) (i : Fin 3) :
    (c.voices i).envelopeLevel ≤ 255 ∧ (c.voices i).noiseShift ≠ 0 ∧
      (c.voices i).accumulator % 0x1000000 = (c.voices i).accumulator := by
  obtain ⟨h1, h2, _h3, h4⟩ := soundcard_invariant h i
  exact ⟨h1, h2, Nat.mod_eq_of_lt h4⟩

/-- Witness for C8 at the state reached by gating voice 0 with noise
enabled (control 0x81) and running one SID clock cycle. -/
theorem claim_C8_witness :
    ((SoundCard.clockOneCycle (SoundCard.write 4 0x81 SoundCard.init)).voices 0).envelopeLevel ≤ 255 ∧
      ((SoundCard.clockOneCycle (SoundCard.write 4 0x81 SoundCard.init)).voices 0).noiseShift ≠ 0 ∧
      ((SoundCard.clockOneCycle (SoundCard.write 4 0x81 SoundCard.init)).voices 0).accumulator % 0x1000000
        = ((SoundCard.clockOneCycle (SoundCard.write 4 0x81 SoundCard.init)).voices 0).accumulator :=
  claim_C8 _ (SoundCard.Reach.ck (SoundCard.Reach.wr 4 0x81 (by decide) SoundCard.Reach.init)) 0

theorem land_mask4 (x : Nat) : x &&& 15 = x % 16 := by
  have := Nat.and_pow_two_sub_one_eq_mod x 4
  norm_num at this
  omega

theorem getD_components (pal : List Nat) (k : Nat) (hk : k < 4) :
    [pal.getD 0 0, pal.getD 1 0, pal.getD 2 0, pal.getD 3 0].getD k 0 = pal.getD k 0 := by
  interval_cases k <;> rfl

/-- Pointwise value of the `fillBackground` loop: inside the written window
the buffer holds the RGBA component selected by the byte offset modulo 4,
outside it the old contents. -/
theorem fillBgLoop_get (r g b a : Nat) :
    ∀ (n i : Nat) (buf : Nat → Nat) (j : Nat),
      VideoCard.fillBgLoop n i r g b a buf j =
        if i ≤ j ∧ j < i + 4 * n then [r, g, b, a].getD ((j - i) % 4) 0 else buf j := by
  intro n
  induction n with
  | zero =>
    intro i buf j
    rw [if_neg (by omega)]
    rfl
  | succ n ih =>
    intro i buf j
    rw [show VideoCard.fillBgLoop (n + 1) i r g b a buf =
          VideoCard.fillBgLoop n (i + 4) r g b a
            (updFn (updFn (updFn (updFn buf i r) (i + 1) g) (i + 2) b) (i + 3) a) from rfl]
    rw [ih]
    by_cases h4 : i + 4 ≤ j ∧ j < i + 4 + 4 * n
    · rw [if_pos h4, if_pos (by omega)]
      congr 1
      omega
    · rw [if_neg h4]
      by_cases hj : i ≤ j ∧ j < i + 4 * (n + 1)
      · rw [if_pos hj]
        have hfour : j = i ∨ j = i + 1 ∨ j = i + 2 ∨ j = i + 3 := by omega
        rcases hfour with h | h | h | h
        · rw [h, updFn_other _ (i + 3) a i (by omega), updFn_other _ (i + 2) b i (by omega),
              updFn_other _ (i + 1) g i (by omega), updFn_same]
          simp
        · rw [h, updFn_other _ (i + 3) a (i + 1) (by omega),
              updFn_other _ (i + 2) b (i + 1) (by omega), updFn_same]
          simp [Nat.add_sub_cancel_left]
        · rw [h, updFn_other _ (i + 3) a (i + 2) (by omega), updFn_same]
          simp [Nat.add_sub_cancel_left]
        · rw [h, updFn_same]
          simp [Nat.add_sub_cancel_left]
      · rw [if_neg hj]
        rw [updFn_other _ (i + 3) a j (by omega), updFn_other _ (i + 2) b j (by omega),
            updFn_other _ (i + 1) g j (by omega), updFn_other _ i r j (by omega)]

/-- If the whole (reachable part of the) buffer already holds the RGBA
pattern of the backdrop palette and the scanline pixels are the constant
backdrop color, the `writeScanlineToBuffer` loop rewrites each touched byte
with the value it already has. -/
theorem scanOutLoop_const (bg : Nat) :
    ∀ (n x ro : Nat) (buf : Nat → Nat),
      ro % 4 = 0 →
      ro + (VideoCard.BORDER_X + x + n) * 4 ≤ 307200 →
      (∀ j, j < 307200 → buf j = (TMS_PALETTE (bg &&& 0x0F)).getD (j % 4) 0) →
      ∀ j, VideoCard.scanOutLoop n x ro (fun _ => bg) buf j = buf j := by
  intro n
  induction n with
  | zero => intro x ro buf _ _ _ j; rfl
  | succ n ih =>
    intro x ro buf hro hbound hbuf j
    rw [show VideoCard.scanOutLoop (n + 1) x ro (fun _ => bg) buf =
          VideoCard.scanOutLoop n (x + 1) ro (fun _ => bg)
            (updFn (updFn (updFn (updFn buf (ro + (VideoCard.BORDER_X + x) * 4)
                ((TMS_PALETTE (bg &&& 0x0F)).getD 0 0))
              (ro + (VideoCard.BORDER_X + x) * 4 + 1) ((TMS_PALETTE (bg &&& 0x0F)).getD 1 0))
              (ro + (VideoCard.BORDER_X + x) * 4 + 2) ((TMS_PALETTE (bg &&& 0x0F)).getD 2 0))
              (ro + (VideoCard.BORDER_X + x) * 4 + 3) ((TMS_PALETTE (bg &&& 0x0F)).getD 3 0))
        from rfl]
    have hcollapse : ∀ jj,
        (updFn (updFn (updFn (updFn buf (ro + (VideoCard.BORDER_X + x) * 4)
            ((TMS_PALETTE (bg &&& 0x0F)).getD 0 0))
          (ro + (VideoCard.BORDER_X + x) * 4 + 1) ((TMS_PALETTE (bg &&& 0x0F)).getD 1 0))
          (ro + (VideoCard.BORDER_X + x) * 4 + 2) ((TMS_PALETTE (bg &&& 0x0F)).getD 2 0))
          (ro + (VideoCard.BORDER_X + x) * 4 + 3) ((TMS_PALETTE (bg &&& 0x0F)).getD 3 0)) jj
          = buf jj := by
      intro jj
      unfold updFn
      split_ifs with e3 e2 e1 e0
      · subst e3
        rw [hbuf _ (by omega)]
        congr 1
        omega
      · subst e2
        rw [hbuf _ (by omega)]
        congr 1
        omega
      · subst e1
        rw [hbuf _ (by omega)]
        congr 1
        omega
      · subst e0
        rw [hbuf _ (by omega)]
        congr 1
        omega
      · rfl
    have hbuf2 : ∀ jj, jj < 307200 →
        (updFn (updFn (updFn (updFn buf (ro + (VideoCard.BORDER_X + x) * 4)
            ((TMS_PALETTE (bg &&& 0x0F)).getD 0 0))
          (ro + (VideoCard.BORDER_X + x) * 4 + 1) ((TMS_PALETTE (bg &&& 0x0F)).getD 1 0))
          (ro + (VideoCard.BORDER_X + x) * 4 + 2) ((TMS_PALETTE (bg &&& 0x0F)).getD 2 0))
          (ro + (VideoCard.BORDER_X + x) * 4 + 3) ((TMS_PALETTE (bg &&& 0x0F)).getD 3 0)) jj
          = (TMS_PALETTE (bg &&& 0x0F)).getD (jj % 4) 0 := by
      intro jj hjj
      rw [hcollapse jj]
      exact hbuf jj hjj
    rw [ih (x + 1) ro _ hro (by omega) hbuf2 j, hcollapse j]

/-- Backdrop pattern of the output buffer after `fillBackground`. -/
theorem fillBackground_buffer (c : VideoCard) (j : Nat) (hj : j < 307200) :
    (VideoCard.fillBackground c).buffer j =
      (TMS_PALETTE (VideoCard.mainBgColor c)).getD (j % 4) 0 := by
  have h76 : VideoCard.DISPLAY_WIDTH * VideoCard.DISPLAY_HEIGHT = 76800 := by decide
  simp only [VideoCard.fillBackground]
  rw [fillBgLoop_get]
  rw [if_pos ⟨Nat.zero_le j, by omega⟩, Nat.sub_zero]
  exact getD_components _ _ (Nat.mod_lt _ (by decide))

theorem fillBackground_registers (c : VideoCard) :
    (VideoCard.fillBackground c).registers = c.registers := by
  simp only [VideoCard.fillBackground]

theorem fillBackground_currentScanline (c : VideoCard) :
    (VideoCard.fillBackground c).currentScanline = c.currentScanline := by
  simp only [VideoCard.fillBackground]

theorem fillBackground_status (c : VideoCard) :
    (VideoCard.fillBackground c).status = c.status := by
  simp only [VideoCard.fillBackground]

theorem fillBackground_displayEnabled (c : VideoCard) :
    VideoCard.displayEnabled (VideoCard.fillBackground c) = VideoCard.displayEnabled c := by
  unfold VideoCard.displayEnabled
  rw [fillBackground_registers]

theorem fillBackground_mainBgColor (c : VideoCard) :
    VideoCard.mainBgColor (VideoCard.fillBackground c) = VideoCard.mainBgColor c := by
  unfold VideoCard.mainBgColor
  rw [fillBackground_registers]

/-- Rendering scanline 0 with the display disabled: the scanline pixels
become the constant backdrop color, the first active row is written
through `scanOutLoop`, no interrupt fires and the status is untouched. -/
theorem renderScanline0_disabled (c1 : VideoCard)
    (hdis : VideoCard.displayEnabled c1 = false) :
    VideoCard.renderScanline 0 c1 =
      ({ c1 with
          scanlinePixels := fun _ => VideoCard.mainBgColor c1,
          buffer := VideoCard.scanOutLoop VideoCard.TMS_PIXELS_X 0
            ((0 + VideoCard.BORDER_Y) * VideoCard.DISPLAY_WIDTH * 4)
            (fun _ => VideoCard.mainBgColor c1) c1.buffer }, false) := by
  unfold VideoCard.renderScanline
  dsimp only
  rw [if_pos (Or.inl (by rw [hdis]; exact Bool.false_ne_true))]
  rw [if_neg]
  · dsimp only
    unfold VideoCard.writeScanlineToBuffer
    dsimp only
    rw [if_pos (show (0 : Nat) + VideoCard.BORDER_Y < VideoCard.DISPLAY_HEIGHT from by decide)]
  · exact fun h => absurd h.1 (by decide)

/-- With the display disabled, processing scanline 0 (generic over the
state `c0` produced by the backdrop fill) replaces the scanline pixels by
the constant backdrop color, rewrites the first active row of the buffer
through `scanOutLoop`, leaves the status untouched and advances the
scanline counter. -/
theorem processScanline0_core (c : VideoCard) (hscan : c.currentScanline = 0)
    (c0 : VideoCard) (hfb : VideoCard.fillBackground c = c0)
    (hdis0 : VideoCard.displayEnabled c0 = false) (hcs0 : c0.currentScanline = 0) :
    VideoCard.processScanline c =
      ({ c0 with
          scanlinePixels := fun _ => VideoCard.mainBgColor c0,
          buffer := VideoCard.scanOutLoop VideoCard.TMS_PIXELS_X 0
            ((0 + VideoCard.BORDER_Y) * VideoCard.DISPLAY_WIDTH * 4)
            (fun _ => VideoCard.mainBgColor c0) c0.buffer,
          currentScanline := 0 + 1 }, false) := by
  unfold VideoCard.processScanline
  dsimp only
  rw [if_pos hscan, hfb, hcs0]
  rw [if_pos (show (0 : Nat) < VideoCard.TMS_PIXELS_Y from by decide)]
  rw [renderScanline0_disabled c0 hdis0]
  dsimp only
  rw [hcs0]
  rw [if_neg (show ¬((0 : Nat) + 1 ≥ VideoCard.TOTAL_SCANLINES) from by decide)]

/-- Full state after processing scanline 0 with the display disabled. -/
theorem processScanline0_disabled (c : VideoCard)
    (hdis : VideoCard.displayEnabled c = false) (hscan : c.currentScanline = 0) :
    VideoCard.processScanline c =
      ({ VideoCard.fillBackground c with
          scanlinePixels := fun _ => VideoCard.mainBgColor (VideoCard.fillBackground c),
          buffer := VideoCard.scanOutLoop VideoCard.TMS_PIXELS_X 0
            ((0 + VideoCard.BORDER_Y) * VideoCard.DISPLAY_WIDTH * 4)
            (fun _ => VideoCard.mainBgColor (VideoCard.fillBackground c))
            (VideoCard.fillBackground c).buffer,
          currentScanline := 0 + 1 }, false) :=
  processScanline0_core c hscan (VideoCard.fillBackground c) rfl
    (by rw [fillBackground_displayEnabled]; exact hdis)
    (by rw [fillBackground_currentScanline]; exact hscan)

/-- C2 (amended): processing scanline 0 fills the whole 320x240 RGBA
output buffer with the backdrop color, but the status register is cleared
only by the sprite stage of an enabled display; with the display disabled
(stated here) the status register is left unchanged — not cleared — while
the buffer indeed holds the backdrop RGBA pattern everywhere. -/
theorem claim_C2 (c : VideoCard) (hdis : VideoCard.displayEnabled c = false)
    (hscan : c.currentScanline = 0) :
    (VideoCard.processScanline c).1.status = c.status ∧
      ∀ j, j < 307200 → (VideoCard.processScanline c).1.buffer j =
        (TMS_PALETTE (VideoCard.mainBgColor c)).getD (j % 4) 0 := by
  rw [processScanline0_disabled c hdis hscan]
  dsimp only
  constructor
  · exact fillBackground_status c
  · intro j hj
    rw [fillBackground_mainBgColor c]
    have hidem : VideoCard.mainBgColor c &&& 15 = VideoCard.mainBgColor c := by
      unfold VideoCard.mainBgColor
      rw [land_mask4, land_mask4]
      omega
    have hbuf : ∀ jj, jj < 307200 → (VideoCard.fillBackground c).buffer jj =
        (TMS_PALETTE (VideoCard.mainBgColor c &&& 15)).getD (jj % 4) 0 := by
      intro jj hjj
      rw [hidem]
      exact fillBackground_buffer c jj hjj
    rw [scanOutLoop_const (VideoCard.mainBgColor c) VideoCard.TMS_PIXELS_X 0
        ((0 + VideoCard.BORDER_Y) * VideoCard.DISPLAY_WIDTH * 4)
        ((VideoCard.fillBackground c).buffer) (by decide) (by decide) hbuf j]
    exact fillBackground_buffer c j hj

/-- Witness for C2 at the freshly constructed VideoCard (display disabled,
scanline 0): status is preserved and byte 1234 of the buffer holds the
green RGBA component of backdrop color 0. -/
theorem claim_C2_witness :
    (VideoCard.processScanline VideoCard.init).1.status = VideoCard.init.status ∧
      (VideoCard.processScanline VideoCard.init).1.buffer 1234 =
        (TMS_PALETTE (VideoCard.mainBgColor VideoCard.init)).getD (1234 % 4) 0 :=
  ⟨(claim_C2 VideoCard.init (by decide) rfl).1,
    (claim_C2 VideoCard.init (by decide) rfl).2 1234 (by decide)⟩

/-- C2 counterexample to the original claim: with the display disabled and
a pending status flag (collision bit 0x20), processing scanline 0 does NOT
clear the status register — `outputSprites` (the only place that zeroes
it) is never reached. -/
theorem claim_C2_counterexample :
    VideoCard.displayEnabled ({ VideoCard.init with status := 0x20 } : VideoCard) = false ∧
      ({ VideoCard.init with status := 0x20 } : VideoCard).currentScanline = 0 ∧
      (VideoCard.processScanline ({ VideoCard.init with status := 0x20 } : VideoCard)).1.status ≠ 0 := by
  refine ⟨rfl, rfl, ?_⟩
  decide

theorem copyRange_get (src dst : Nat → Nat) (dstOff srcOff len j : Nat) :
    copyRange src dst dstOff srcOff len j =
      if dstOff ≤ j ∧ j < dstOff + len then src (srcOff + (j - dstOff)) else dst j := rfl

theorem swrite0 (v : Nat) (c : StorageCard) :
    StorageCard.write 0x00 v c = StorageCard.writeBuffer v c := by
  unfold StorageCard.write
  split <;> first | rfl | (exact absurd (by assumption) (by decide))

theorem sread0 (c : StorageCard) :
    StorageCard.read 0x00 c = StorageCard.readBuffer c := by
  unfold StorageCard.read
  split <;> first | rfl | (exact absurd (by assumption) (by decide))

theorem swrite2 (d : Nat) (c : StorageCard) :
    StorageCard.write 0x02 d c = { c with sectorCount := d } := by
  unfold StorageCard.write
  split <;> first | rfl | (exact absurd (by assumption) (by decide))

theorem swrite3 (d : Nat) (c : StorageCard) :
    StorageCard.write 0x03 d c = { c with lba0 := d } := by
  unfold StorageCard.write
  split <;> first | rfl | (exact absurd (by assumption) (by decide))

theorem swrite4 (d : Nat) (c : StorageCard) :
    StorageCard.write 0x04 d c = { c with lba1 := d } := by
  unfold StorageCard.write
  split <;> first | rfl | (exact absurd (by assumption) (by decide))

theorem swrite5 (d : Nat) (c : StorageCard) :
    StorageCard.write 0x05 d c = { c with lba2 := d } := by
  unfold StorageCard.write
  split <;> first | rfl | (exact absurd (by assumption) (by decide))

theorem swrite6 (d : Nat) (c : StorageCard) :
    StorageCard.write 0x06 d c = { c with lba3 := (d &&& 0x0F) ||| 0xE0 } := by
  unfold StorageCard.write
  split <;> first | rfl | (exact absurd (by assumption) (by decide))

/-- `issue` programs sector count 1, the four LBA registers, and runs
`executeCommand` on the stored command byte. -/
theorem issue_eq (cmd s : Nat) (c : StorageCard) :
    StorageCard.issue cmd s c =
      StorageCard.executeCommand
        { c with sectorCount := 1, lba0 := s &&& 0xFF, lba1 := (s >>> 8) &&& 0xFF,
                 lba2 := (s >>> 16) &&& 0xFF,
                 lba3 := (((s >>> 24) &&& 0xFF) &&& 0x0F) ||| 0xE0,
                 command := cmd } := by
  unfold StorageCard.issue
  rw [swrite2, swrite3, swrite4, swrite5, swrite6, storage_write7]

theorem sectorIndex_fields (c₁ : StorageCard) :
    StorageCard.sectorIndex c₁ =
      ((c₁.lba3 &&& 0x0F) <<< 24) ||| (c₁.lba2 <<< 16) ||| (c₁.lba1 <<< 8) ||| c₁.lba0 := rfl

/-- Splitting a sector index below 2^18 into the ATA LBA registers and
reassembling it through `sectorIndex` is the identity. -/
theorem sectorIndex_recombine (s : Nat) (hs : s < 262144) :
    ((((((s >>> 24) &&& 0xFF) &&& 0x0F) ||| 0xE0) &&& 0x0F) <<< 24) |||
        (((s >>> 16) &&& 0xFF) <<< 16) ||| (((s >>> 8) &&& 0xFF) <<< 8) ||| (s &&& 0xFF)
      = s := by
  have h24 : s >>> 24 = 0 := by
    rw [shiftr24_eq]
    omega
  have e1 : s &&& 255 = s % 256 := land255_eq s
  have e2 : (s >>> 8) &&& 255 = s / 256 % 256 := by rw [shiftr8_eq, land255_eq]
  have e3 : (s >>> 16) &&& 255 = s / 65536 % 256 := by rw [shiftr16_eq, land255_eq]
  rw [h24, e1, e2, e3]
  rw [show ((((((0 : Nat) &&& 0xFF) &&& 0x0F) ||| 0xE0) &&& 0x0F) <<< 24) = 0 from by decide]
  rw [Nat.shiftLeft_eq, Nat.shiftLeft_eq]
  have p8 : (2 : Nat) ^ 8 = 256 := by norm_num
  have p16 : (2 : Nat) ^ 16 = 65536 := by norm_num
  have p24 : (2 : Nat) ^ 24 = 16777216 := by norm_num
  rw [lor_eq_add_of_dvd 0 _ 24 (dvd_zero _) (by simp only [p16, p24]; omega)]
  rw [Nat.zero_add]
  rw [lor_eq_add_of_dvd _ _ 16 (Nat.dvd_mul_left _ _) (by simp only [p8, p16]; omega)]
  rw [lor_eq_add_of_dvd _ _ 8
    (dvd_add (dvd_mul_of_dvd_right (pow_dvd_pow 2 (by omega)) _) (Nat.dvd_mul_left _ _))
    (by simp only [p8]; omega)]
  simp only [p8, p16]
  omega

/-- The LBA registers written by `issue` reassemble to the sector index. -/
theorem issue_sectorIndex (s : Nat) (c : StorageCard) (cmd : Nat) (hs : s < 262144) :
    StorageCard.sectorIndex
      { c with sectorCount := 1, lba0 := s &&& 0xFF, lba1 := (s >>> 8) &&& 0xFF,
               lba2 := (s >>> 16) &&& 0xFF,
               lba3 := (((s >>> 24) &&& 0xFF) &&& 0x0F) ||| 0xE0,
               command := cmd } = s := by
  rw [sectorIndex_fields]
  dsimp only
  exact sectorIndex_recombine s hs

/-- Any state whose LBA registers hold the `issue`-written values for a
sector `s < 2^18` has sector index `s`. -/
theorem sectorIndex_parts (c₁ : StorageCard) (s : Nat) (hs : s < 262144)
    (h0 : c₁.lba0 = s &&& 0xFF) (h1 : c₁.lba1 = (s >>> 8) &&& 0xFF)
    (h2 : c₁.lba2 = (s >>> 16) &&& 0xFF)
    (h3 : c₁.lba3 = (((s >>> 24) &&& 0xFF) &&& 0x0F) ||| 0xE0) :
    StorageCard.sectorIndex c₁ = s := by
  rw [sectorIndex_fields, h0, h1, h2, h3]
  exact sectorIndex_recombine s hs

/-- `executeCommand` on an idle card with a valid LBA and command 0x30:
clear ERR/DRQ and error, set up the transfer counters, set DRQ and enter
the transferring state. -/
theorem exec30_eq (c₀ : StorageCard) (ht : c₀.isTransferring = false)
    (hi : c₀.isIdentifying = false)
    (hval : StorageCard.sectorIndex c₀ < StorageCard.SECTOR_COUNT)
    (hcmd : c₀.command = 0x30) :
    StorageCard.executeCommand c₀ =
      { c₀ with
          status := ((c₀.status &&& bnot8 StorageCard.STATUS_ERR) &&&
            bnot8 StorageCard.STATUS_DRQ) ||| StorageCard.STATUS_DRQ,
          error := 0, commandDataSize := StorageCard.SECTOR_SIZE * c₀.sectorCount,
          bufferIndex := 0, sectorOffset := 0, isTransferring := true } := by
  unfold StorageCard.executeCommand
  dsimp only
  rw [if_neg (by simp [ht, hi])]
  rw [hcmd]
  split <;>
    try (first
      | (exact absurd (by assumption) (by decide))
      | (exact absurd rfl (by assumption)))
  split
  · rename_i hnv
    exact absurd (decide_eq_true hval) hnv
  · rfl

/-- `executeCommand` on an idle card with a valid LBA and command 0x20:
additionally the first sector is copied from storage into the transfer
buffer. -/
theorem exec20_eq (c₀ : StorageCard) (ht : c₀.isTransferring = false)
    (hi : c₀.isIdentifying = false)
    (hval : StorageCard.sectorIndex c₀ < StorageCard.SECTOR_COUNT)
    (hcmd : c₀.command = 0x20) :
    StorageCard.executeCommand c₀ =
      { c₀ with
          status := ((c₀.status &&& bnot8 StorageCard.STATUS_ERR) &&&
            bnot8 StorageCard.STATUS_DRQ) ||| StorageCard.STATUS_DRQ,
          error := 0, commandDataSize := StorageCard.SECTOR_SIZE * c₀.sectorCount,
          bufferIndex := 0, sectorOffset := 0,
          buffer := copyRange c₀.storage c₀.buffer 0
            (StorageCard.sectorIndex c₀ * StorageCard.SECTOR_SIZE) StorageCard.SECTOR_SIZE,
          isTransferring := true } := by
  unfold StorageCard.executeCommand
  dsimp only
  rw [if_neg (by simp [ht, hi])]
  rw [hcmd]
  split <;>
    try (first
      | (exact absurd (by assumption) (by decide))
      | (exact absurd rfl (by assumption)))
  split
  · rename_i hnv
    exact absurd (decide_eq_true hval) hnv
  · rfl

/-- Data-port write while filling the sector buffer (not yet at byte 511):
store the byte and advance the index. -/
theorem writeBuffer_step (c : StorageCard) (v : Nat) (hidx : c.bufferIndex < 511) :
    StorageCard.writeBuffer v c =
      { c with buffer := updFn c.buffer c.bufferIndex (v &&& 0xFF),
               bufferIndex := c.bufferIndex + 1 } := by
  unfold StorageCard.writeBuffer
  dsimp only
  rw [if_pos (show c.bufferIndex < StorageCard.SECTOR_SIZE - 1 from hidx)]

/-- The 512th data-port write (single-sector transfer): store the byte,
flush the buffer to storage, leave the transferring state and clear DRQ. -/
theorem writeBuffer_flush (c : StorageCard) (v : Nat) (hidx : c.bufferIndex = 511)
    (hoff : c.sectorOffset = 0) (hcnt : c.sectorCount = 1) :
    StorageCard.writeBuffer v c =
      { c with buffer := updFn c.buffer 511 (v &&& 0xFF),
               bufferIndex := 0,
               storage := copyRange (updFn c.buffer 511 (v &&& 0xFF)) c.storage
                 ((StorageCard.sectorIndex c + 0) * StorageCard.SECTOR_SIZE) 0
                 StorageCard.SECTOR_SIZE,
               sectorOffset := 0 + 1,
               isTransferring := false,
               status := c.status &&& bnot8 StorageCard.STATUS_DRQ } := by
  unfold StorageCard.writeBuffer
  dsimp only
  rw [hidx, hoff, hcnt]
  rw [if_neg (show ¬((511 : Nat) < StorageCard.SECTOR_SIZE - 1) from by decide)]
  rw [if_pos (show (0 : Nat) + 1 ≥ 1 from by decide)]
  rfl

/-- Issuing a single-sector WRITE SECTORS (0x30) command on an idle card
for a valid sector `s`. -/
theorem issue30_eq (c : StorageCard) (ht : c.isTransferring = false)
    (hi : c.isIdentifying = false) (s : Nat) (hs : s < 262144) :
    StorageCard.issue 0x30 s c =
      { c with sectorCount := 1, lba0 := s &&& 0xFF, lba1 := (s >>> 8) &&& 0xFF,
               lba2 := (s >>> 16) &&& 0xFF,
               lba3 := (((s >>> 24) &&& 0xFF) &&& 0x0F) ||| 0xE0,
               command := 0x30, error := 0,
               commandDataSize := StorageCard.SECTOR_SIZE * 1,
               bufferIndex := 0, sectorOffset := 0,
               status := ((c.status &&& bnot8 StorageCard.STATUS_ERR) &&&
                 bnot8 StorageCard.STATUS_DRQ) ||| StorageCard.STATUS_DRQ,
               isTransferring := true } := by
  rw [issue_eq]
  refine (exec30_eq _ ?_ ?_ ?_ ?_).trans ?_
  · exact ht
  · exact hi
  · rw [issue_sectorIndex s c 0x30 hs]
    exact hs
  · rfl
  · rfl

/-- Issuing a single-sector READ SECTORS (0x20) command on an idle card
for a valid sector `s`: the sector is loaded into the transfer buffer. -/
theorem issue20_eq (c : StorageCard) (ht : c.isTransferring = false)
    (hi : c.isIdentifying = false) (s : Nat) (hs : s < 262144) :
    StorageCard.issue 0x20 s c =
      { c with sectorCount := 1, lba0 := s &&& 0xFF, lba1 := (s >>> 8) &&& 0xFF,
               lba2 := (s >>> 16) &&& 0xFF,
               lba3 := (((s >>> 24) &&& 0xFF) &&& 0x0F) ||| 0xE0,
               command := 0x20, error := 0,
               commandDataSize := StorageCard.SECTOR_SIZE * 1,
               bufferIndex := 0, sectorOffset := 0,
               status := ((c.status &&& bnot8 StorageCard.STATUS_ERR) &&&
                 bnot8 StorageCard.STATUS_DRQ) ||| StorageCard.STATUS_DRQ,
               buffer := copyRange c.storage c.buffer 0
                 (s * StorageCard.SECTOR_SIZE) StorageCard.SECTOR_SIZE,
               isTransferring := true } := by
  rw [issue_eq]
  refine (exec20_eq _ ?_ ?_ ?_ ?_).trans ?_
  · exact ht
  · exact hi
  · rw [issue_sectorIndex s c 0x20 hs]
    exact hs
  · rfl
  · rw [issue_sectorIndex s c 0x20 hs]

/-- Pushing the remaining payload bytes through the data port: once all
512 bytes are in, the buffer is flushed to storage at the sector offset,
the card leaves the transferring state, and the other identification
fields are untouched. -/
theorem writeSeq_inv (p : Nat → Nat) :
    ∀ (n k : Nat), k + n = 512 → 1 ≤ n → ∀ (c : StorageCard),
      c.bufferIndex = k → c.sectorOffset = 0 → c.sectorCount = 1 →
      (∀ i, i < k → c.buffer i = p i &&& 0xFF) →
      (∀ j, (StorageCard.writeSeq ((List.range' k n).map p) c).storage j =
          if StorageCard.sectorIndex c * 512 ≤ j ∧ j < StorageCard.sectorIndex c * 512 + 512
          then p (j - StorageCard.sectorIndex c * 512) &&& 0xFF else c.storage j) ∧
        (StorageCard.writeSeq ((List.range' k n).map p) c).isTransferring = false ∧
        (StorageCard.writeSeq ((List.range' k n).map p) c).isIdentifying = c.isIdentifying := by
  intro n
  induction n with
  | zero =>
    intro k hk h1
    exact absurd h1 (by decide)
  | succ n ih =>
    intro k hk h1 c hbi hoff hcnt hbuf
    by_cases hn : n = 0
    · subst hn
      have hk511 : k = 511 := by omega
      subst hk511
      rw [show (List.range' 511 1).map p = [p 511] from rfl]
      rw [show StorageCard.writeSeq [p 511] c = StorageCard.write 0x00 (p 511) c from rfl]
      rw [swrite0, writeBuffer_flush c (p 511) hbi hoff hcnt]
      refine ⟨?_, rfl, rfl⟩
      intro j
      dsimp only
      rw [copyRange_get]
      have h512 : StorageCard.SECTOR_SIZE = 512 := rfl
      simp only [h512, Nat.add_zero]
      by_cases hw : StorageCard.sectorIndex c * 512 ≤ j ∧ j < StorageCard.sectorIndex c * 512 + 512
      · rw [if_pos hw, if_pos hw, Nat.zero_add]
        by_cases hj : j - StorageCard.sectorIndex c * 512 = 511
        · rw [hj, updFn_same]
        · rw [updFn_other _ 511 (p 511 &&& 255) _ hj]
          exact hbuf _ (by omega)
      · rw [if_neg hw, if_neg hw]
    · have hklt : k < 511 := by omega
      rw [show List.range' k (n + 1) = k :: List.range' (k + 1) n from rfl, List.map_cons]
      rw [show StorageCard.writeSeq (p k :: (List.range' (k + 1) n).map p) c
            = StorageCard.writeSeq ((List.range' (k + 1) n).map p)
                (StorageCard.write 0x00 (p k) c) from rfl]
      rw [swrite0, writeBuffer_step c (p k) (by omega), hbi]
      obtain ⟨ihs, ihq, ihr⟩ :=
        ih (k + 1) (by omega) (by omega)
          { c with buffer := updFn c.buffer k (p k &&& 0xFF), bufferIndex := k + 1 }
          rfl hoff hcnt
          (by
            intro i hik
            show updFn c.buffer k (p k &&& 0xFF) i = p i &&& 0xFF
            by_cases hikk : i = k
            · rw [hikk, updFn_same]
            · rw [updFn_other _ k (p k &&& 0xFF) i hikk]
              exact hbuf i (by omega))
      refine ⟨?_, ihq, ihr⟩
      intro j
      rw [ihs j]
      rfl

/-- Data-port read while draining the sector buffer (not yet at byte 511):
return the byte and advance the index. -/
theorem readBuffer_step (c : StorageCard) (hid : c.isIdentifying = false)
    (ht : c.isTransferring = true) (hidx : c.bufferIndex < 511) :
    StorageCard.readBuffer c =
      (c.buffer c.bufferIndex, { c with bufferIndex := c.bufferIndex + 1 }) := by
  unfold StorageCard.readBuffer
  rw [if_neg (show ¬(c.isIdentifying = true) from by rw [hid]; exact Bool.false_ne_true)]
  rw [if_pos (show c.isTransferring = true from ht)]
  dsimp only
  rw [if_pos (show c.bufferIndex < StorageCard.SECTOR_SIZE - 1 from hidx)]

/-- The 512th data-port read (single-sector transfer): return the last
byte, leave the transferring state and clear DRQ. -/
theorem readBuffer_last (c : StorageCard) (hid : c.isIdentifying = false)
    (ht : c.isTransferring = true) (hidx : c.bufferIndex = 511)
    (hoff : c.sectorOffset = 0) (hcnt : c.sectorCount = 1) :
    StorageCard.readBuffer c =
      (c.buffer 511,
        { c with bufferIndex := 0, sectorOffset := 0 + 1, isTransferring := false,
                 status := c.status &&& bnot8 StorageCard.STATUS_DRQ }) := by
  unfold StorageCard.readBuffer
  rw [if_neg (show ¬(c.isIdentifying = true) from by rw [hid]; exact Bool.false_ne_true)]
  rw [if_pos (show c.isTransferring = true from ht)]
  dsimp only
  rw [hidx, hoff, hcnt]
  rw [if_neg (show ¬((511 : Nat) < StorageCard.SECTOR_SIZE - 1) from by decide)]
  rw [if_neg (show ¬((0 : Nat) + 1 < 1) from by decide)]

/-- Draining the transfer buffer with `n` data-port reads starting at
buffer index `k` returns bytes `k`, `k+1`, … of the buffer in order. -/
theorem readSeq_go :
    ∀ (n k : Nat), k + n = 512 → ∀ (c : StorageCard),
      c.isIdentifying = false → c.isTransferring = true → c.bufferIndex = k →
      c.sectorOffset = 0 → c.sectorCount = 1 →
      (StorageCard.readSeq n c).1 = (List.range' k n).map c.buffer := by
  intro n
  induction n with
  | zero => intro k hk c _ _ _ _ _; rfl
  | succ n ih =>
    intro k hk c hid ht hbi hoff hcnt
    by_cases hkl : k < 511
    · unfold StorageCard.readSeq
      dsimp only
      rw [sread0, readBuffer_step c hid ht (by omega), hbi]
      dsimp only
      rw [ih (k + 1) (by omega) { c with bufferIndex := k + 1 } hid ht rfl hoff hcnt]
      rfl
    · have hn0 : n = 0 := by omega
      have hk511 : k = 511 := by omega
      subst hn0
      subst hk511
      unfold StorageCard.readSeq
      dsimp only
      rw [sread0, readBuffer_last c hid ht hbi hoff hcnt]
      rfl

/-- C3: writing a 512-byte payload to any valid sector through the CF
command/data-port protocol and reading that sector back returns exactly
the payload bytes in order. -/
theorem claim_C3 (c : StorageCard) (ht : c.isTransferring = false)
    (hi : c.isIdentifying = false) (s : Nat) (hs : s < 262144)
    (p : Nat → Nat) (hp : ∀ i, i < 512 → p i < 256) :
    StorageCard.cfRoundTrip s p c = (List.range 512).map p := by
  unfold StorageCard.cfRoundTrip StorageCard.cfWriteSector StorageCard.cfReadSector
  rw [List.range_eq_range']
  rw [issue30_eq c ht hi s hs]
  obtain ⟨hsto, htr, hide⟩ :=
    writeSeq_inv p 512 0 (by decide) (by decide)
      { c with sectorCount := 1, lba0 := s &&& 0xFF, lba1 := (s >>> 8) &&& 0xFF,
               lba2 := (s >>> 16) &&& 0xFF,
               lba3 := (((s >>> 24) &&& 0xFF) &&& 0x0F) ||| 0xE0,
               command := 0x30, error := 0,
               commandDataSize := StorageCard.SECTOR_SIZE * 1,
               bufferIndex := 0, sectorOffset := 0,
               status := ((c.status &&& bnot8 StorageCard.STATUS_ERR) &&&
                 bnot8 StorageCard.STATUS_DRQ) ||| StorageCard.STATUS_DRQ,
               isTransferring := true }
      rfl rfl rfl (fun i hik => absurd hik (Nat.not_lt_zero i))
  have hsi : StorageCard.sectorIndex
      { c with sectorCount := 1, lba0 := s &&& 0xFF, lba1 := (s >>> 8) &&& 0xFF,
               lba2 := (s >>> 16) &&& 0xFF,
               lba3 := (((s >>> 24) &&& 0xFF) &&& 0x0F) ||| 0xE0,
               command := 0x30, error := 0,
               commandDataSize := StorageCard.SECTOR_SIZE * 1,
               bufferIndex := 0, sectorOffset := 0,
               status := ((c.status &&& bnot8 StorageCard.STATUS_ERR) &&&
                 bnot8 StorageCard.STATUS_DRQ) ||| StorageCard.STATUS_DRQ,
               isTransferring := true } = s :=
    sectorIndex_parts _ s hs rfl rfl rfl rfl
  rw [hsi] at hsto
  have hide2 := hide.trans hi
  rw [issue20_eq _ htr hide2 s hs]
  rw [readSeq_go 512 0 (by decide)]
  · refine List.map_congr_left ?_
    intro x hx
    obtain ⟨i, hilt, hxeq⟩ := List.mem_range'.mp hx
    have hx512 : x < 512 := by omega
    dsimp only
    rw [copyRange_get]
    have h512 : StorageCard.SECTOR_SIZE = 512 := rfl
    simp only [h512]
    simp only [h512] at hsto
    rw [if_pos ⟨Nat.zero_le x, by omega⟩, Nat.sub_zero]
    rw [hsto (s * 512 + x)]
    rw [if_pos ⟨by omega, by omega⟩]
    rw [show s * 512 + x - s * 512 = x from by omega]
    rw [land255_eq]
    exact Nat.mod_eq_of_lt (hp x hx512)
  · dsimp only
    exact hide2
  · rfl
  · rfl
  · rfl
  · rfl

/-- Witness for C3: round trip of the payload `i % 256` through sector 3
of a freshly constructed card. -/
theorem claim_C3_witness :
    StorageCard.cfRoundTrip 3 (fun i => i % 256) StorageCard.init =
      (List.range 512).map (fun i => i % 256) :=
  claim_C3 StorageCard.init rfl rfl 3 (by decide) (fun i => i % 256)
    (fun i _ => Nat.mod_lt i (by decide))
